import Mathlib

/-!
Verification of the SVG_ArtGrid_Forked_UI repository: a shallow embedding of
the two art-grid generation backends, `generate_art_image_pil` from
`ComfyUI_PNGArtGridGeneratorNode.py` (raster, Pillow) and
`generate_art_svg_string` from `SVG_ArtGrid.py` (vector, svgwrite), together
with their color-derivation helpers and all twelve block-style generators.

Modelling conventions:
* Python floats are modelled as exact rationals `ℚ`; the transcendental
  functions reached by the code (`sin`, `**0.5` on non-squares) are abstracted
  into a `FloatOps` record of oracle functions, passed through unchanged, so
  every theorem below quantifies over them.
* The global `random` module is modelled as an explicit `RandState`: an
  entropy oracle `Nat → Nat` plus a position.  Each high-level draw
  (`random.random()`, `random.randint`, `random.choice`, `random.uniform`)
  consumes exactly one oracle value.  `random.seed(n)` replaces the state by
  `⟨mt n, 0⟩` where `mt : Int → Nat → Nat` stands for the Mersenne-Twister
  key schedule; `random.seed()` (no argument) installs a fresh-entropy state
  supplied by the environment.  Draw values are therefore arbitrary, but the
  draw *order* and the state threading are exactly those of the source.
* Both backends are embedded down to the draw-command / element-tree level:
  the pixel rasterization done inside Pillow and the string serialization
  done inside svgwrite are deterministic functions of those traces and of no
  other generation data, and are not part of this repository's code.
* Python raises are modelled with `Except Unit`; a Python function returning
  `None` on a degenerate input is modelled with `Option`.
-/

/-- Model of the state of Python's global `random` module: an entropy oracle
together with the position of the next value to be consumed. -/
structure RandState where
  oracle : Nat → Nat
  pos : Nat

/-- Consume one raw entropy value. -/
def RandState.next (s : RandState) : Nat × RandState :=
  (s.oracle s.pos, ⟨s.oracle, s.pos + 1⟩)

/-- `random.random()`: one draw, a rational in `[0, 1)`. -/
def pyRandom (s : RandState) : ℚ × RandState :=
  let (n, s') := s.next
  (((n % 1000000 : Nat) : ℚ) / 1000000, s')

/-- `random.uniform(a, b) = a + (b-a)*random()` (CPython's definition). -/
def pyUniform (a b : ℚ) (s : RandState) : ℚ × RandState :=
  let (t, s') := pyRandom s
  (a + (b - a) * t, s')

/-- `random.randint(a, b)`: one draw, an integer in `[a, b]` (for `a ≤ b`). -/
def pyRandint (a b : Int) (s : RandState) : Int × RandState :=
  let (n, s') := s.next
  (a + (n : Int) % (b - a + 1), s')

/-- `random.choice(seq)`: one draw, an element of `seq`.  The source only
ever calls it on non-empty sequences, so the default is never returned. -/
def pyChoice {α : Type} (l : List α) (d : α) (s : RandState) : α × RandState :=
  let (n, s') := s.next
  (l.getD (n % l.length) d, s')

/-- Python `int(q)` on a float: truncation toward zero. -/
def pyInt (q : ℚ) : Int :=
  if q < 0 then -⌊-q⌋ else ⌊q⌋

/-- Python `q % 1.0` for a float `q`: the representative in `[0, 1)`. -/
def pyMod1 (q : ℚ) : ℚ := q - ⌊q⌋

/-- Round half to even (Python's `round`) to an integer. -/
def roundHalfEven (q : ℚ) : Int :=
  let f := ⌊q⌋
  let r := q - f
  if r < 1/2 then f else if 1/2 < r then f + 1 else if f % 2 = 0 then f else f + 1

/-- Python `round(q, 1)`. -/
def pyRound1 (q : ℚ) : ℚ := (roundHalfEven (q * 10) : ℚ) / 10

/-- Python `round(q, 2)`. -/
def pyRound2 (q : ℚ) : ℚ := (roundHalfEven (q * 100) : ℚ) / 100

/-- Oracles for the float operations that have no exact rational counterpart.
`sinPi a b` stands for `sin(a*π + b)`; `sqrtQ q` stands for `q ** 0.5`. -/
structure FloatOps where
  sinPi : ℚ → ℚ → ℚ
  sqrtQ : ℚ → ℚ

/-- `int(n ** 0.5)` for a natural `n` (only ever applied to perfect squares
4, 9, 16, 25 in the source). -/
def intSqrt (n : Nat) : Nat :=
  ((List.range (n + 1)).filter (fun k => k * k ≤ n)).foldl max 0

/-- An RGBA color value as Pillow receives it. -/
structure Rgba where
  r : Nat
  g : Nat
  b : Nat
  a : Nat
deriving DecidableEq, Repr

/-- Hexadecimal value of one character, i.e. the digit semantics of
Python's `int(_, 16)`. -/
def hexDigitVal (c : Char) : Option Nat :=
  if '0' ≤ c ∧ c ≤ '9' then some (c.toNat - '0'.toNat)
  else if 'a' ≤ c ∧ c ≤ 'f' then some (c.toNat - 'a'.toNat + 10)
  else if 'A' ≤ c ∧ c ≤ 'F' then some (c.toNat - 'A'.toNat + 10)
  else none

/-- `int(two_chars, 16)`; `none` models the `ValueError` raise. -/
def parseHexPair (c1 c2 : Char) : Option Nat :=
  match hexDigitVal c1, hexDigitVal c2 with
  | some x, some y => some (16 * x + y)
  | _, _ => none

/-- Python `s.lstrip('#')`: drop every leading `'#'`. -/
def lstripHash (l : List Char) : List Char := l.dropWhile (· == '#')

/-- The 3-digit shorthand expansion `"".join([c*2 for c in hex_color])`. -/
def dupChars (l : List Char) : List Char := l.flatMap (fun c => [c, c])

/-- The RGB core shared by both alpha variants of
`ComfyUI_PNGArtGridGeneratorNode.hex_to_rgba` (lines 47-57): strip `'#'`,
expand a 3-char value, silently return black for any other wrong length, and
raise (modelled by `.error`) when a 6-char value holds a non-hex digit. -/
def hexRgbCore (hexColor : String) : Except Unit (Nat × Nat × Nat) :=
  let h0 := lstripHash hexColor.toList
  let h := if h0.length == 3 then dupChars h0 else h0
  if h.length ≠ 6 then .ok (0, 0, 0)
  else
    match parseHexPair (h.getD 0 ' ') (h.getD 1 ' '),
          parseHexPair (h.getD 2 ' ') (h.getD 3 ' '),
          parseHexPair (h.getD 4 ' ') (h.getD 5 ' ') with
    | some r, some g, some b => .ok (r, g, b)
    | _, _, _ => .error ()

/-- `hex_to_rgba(hex_color, alpha)` from the raster backend. -/
def hex_to_rgba (hexColor : String) (alpha : Nat := 255) : Except Unit Rgba :=
  (hexRgbCore hexColor).map (fun rgb => ⟨rgb.1, rgb.2.1, rgb.2.2, alpha⟩)

/-- Python `c.startswith("#")`. -/
def startsWithHash (c : String) : Bool :=
  match c.toList with
  | [] => false
  | ch :: _ => ch == '#'

/-- The validity test both backends apply to palette entries:
`isinstance(c, str) and c.startswith("#") and len(c.lstrip('#')) in [3, 6]`. -/
def validHexShape (c : String) : Bool :=
  startsWithHash c && ((lstripHash c.toList).length == 3 || (lstripHash c.toList).length == 6)

/-- `[c for c in color_palette if ...]`, the valid-entry filter of
`get_two_colors` (SVG) and `pil_get_two_colors` (raster). -/
def validColors (palette : List String) : List String := palette.filter validHexShape

/-- `colorsys.rgb_to_hls`, over exact rationals. -/
def rgb_to_hls (r g b : ℚ) : ℚ × ℚ × ℚ :=
  let maxc := max r (max g b)
  let minc := min r (min g b)
  let sumc := maxc + minc
  let rangec := maxc - minc
  let l := sumc / 2
  if minc = maxc then (0, l, 0)
  else
    let s := if l ≤ 1/2 then rangec / sumc else rangec / (2 - sumc)
    let rc := (maxc - r) / rangec
    let gc := (maxc - g) / rangec
    let bc := (maxc - b) / rangec
    let h := if r = maxc then bc - gc else if g = maxc then 2 + rc - bc else 4 + gc - rc
    (pyMod1 (h / 6), l, s)

/-- `colorsys._v`, over exact rationals. -/
def hlsV (m1 m2 hue : ℚ) : ℚ :=
  let hue := pyMod1 hue
  if hue < 1/6 then m1 + (m2 - m1) * hue * 6
  else if hue < 1/2 then m2
  else if hue < 2/3 then m1 + (m2 - m1) * (2/3 - hue) * 6
  else m1

/-- `colorsys.hls_to_rgb`, over exact rationals. -/
def hls_to_rgb (h l s : ℚ) : ℚ × ℚ × ℚ :=
  if s = 0 then (l, l, l)
  else
    let m2 := if l ≤ 1/2 then l * (1 + s) else l + s - l * s
    let m1 := 2 * l - m2
    (hlsV m1 m2 (h + 1/3), hlsV m1 m2 h, hlsV m1 m2 (h - 1/3))

/-- The fixed fallback pair of the raster background deriver:
`hex_to_rgba("#EEEEEE")` and `hex_to_rgba("#DDDDDD")`. -/
def pilGrayFallback : Rgba × Rgba := (⟨0xEE, 0xEE, 0xEE, 255⟩, ⟨0xDD, 0xDD, 0xDD, 255⟩)

/-- `pil_create_background_colors` (raster backend, lines 98-130): take the
first two palette *entries*, parse them with `hex_to_rgba` (a raise falls to
the gray fallback), average, desaturate by 0.1 and produce a lighter/darker
pair.  Result is `(bg_inner, bg_outer)`. -/
def pil_create_background_colors (color_palette : List String) : Rgba × Rgba :=
  if color_palette.length < 2 then pilGrayFallback
  else
    match hexRgbCore (color_palette.getD 0 ""), hexRgbCore (color_palette.getD 1 "") with
    | .ok (r1, g1, b1), .ok (r2, g2, b2) =>
      let rMix := (r1 + r2) / 2
      let gMix := (g1 + g2) / 2
      let bMix := (b1 + b2) / 2
      let hls := rgb_to_hls ((rMix : ℚ) / 255) ((gMix : ℚ) / 255) ((bMix : ℚ) / 255)
      let s' := max 0 (hls.2.2 - 0.1)
      let desat := hls_to_rgb hls.1 hls.2.1 s'
      let rDesat := pyInt (desat.1 * 255)
      let gDesat := pyInt (desat.2.1 * 255)
      let bDesat := pyInt (desat.2.2 * 255)
      let hls2 := rgb_to_hls ((rDesat : ℚ) / 255) ((gDesat : ℚ) / 255) ((bDesat : ℚ) / 255)
      let lLight := min 1 (hls2.2.1 + 0.1)
      let light := hls_to_rgb hls2.1 lLight hls2.2.2
      let inner : Rgba := ⟨(pyInt (light.1 * 255)).toNat, (pyInt (light.2.1 * 255)).toNat,
        (pyInt (light.2.2 * 255)).toNat, 255⟩
      let lDark := max 0 (hls2.2.1 - 0.1)
      let dark := hls_to_rgb hls2.1 lDark hls2.2.2
      let outer : Rgba := ⟨(pyInt (dark.1 * 255)).toNat, (pyInt (dark.2.1 * 255)).toNat,
        (pyInt (dark.2.2 * 255)).toNat, 255⟩
      (inner, outer)
    | _, _ => pilGrayFallback

/-- Lowercase hex digit character. -/
def hexDigitChar (n : Nat) : Char :=
  if n = 0 then '0' else if n = 1 then '1' else if n = 2 then '2' else if n = 3 then '3'
  else if n = 4 then '4' else if n = 5 then '5' else if n = 6 then '6' else if n = 7 then '7'
  else if n = 8 then '8' else if n = 9 then '9' else if n = 10 then 'a' else if n = 11 then 'b'
  else if n = 12 then 'c' else if n = 13 then 'd' else if n = 14 then 'e' else 'f'

/-- Uppercase hex digit character. -/
def hexDigitCharU (n : Nat) : Char :=
  if n = 10 then 'A' else if n = 11 then 'B' else if n = 12 then 'C' else if n = 13 then 'D'
  else if n = 14 then 'E' else if n = 15 then 'F' else hexDigitChar n

/-- Python `f"{n:02x}"` for `n < 256`. -/
def hex2 (n : Nat) : List Char := [hexDigitChar (n / 16 % 16), hexDigitChar (n % 16)]

/-- Python `f"{n:02X}"` for `n < 256`. -/
def hex2U (n : Nat) : List Char := [hexDigitCharU (n / 16 % 16), hexDigitCharU (n % 16)]

/-- Python `f"#{r:02x}{g:02x}{b:02x}"`. -/
def fmtHexColor (r g b : Nat) : String := ⟨'#' :: (hex2 r ++ hex2 g ++ hex2 b)⟩

/-- Python `f"#{r:02X}{g:02X}{b:02X}"`. -/
def fmtHexColorU (r g b : Nat) : String := ⟨'#' :: (hex2U r ++ hex2U g ++ hex2U b)⟩

/-- The explicit format test of the SVG background deriver:
`isinstance(c, str) and c.startswith('#') and len(c) in [4, 7]`. -/
def svgBgFormatOk (c : String) : Bool :=
  startsWithHash c && (c.toList.length == 4 || c.toList.length == 7)

/-- Strip and expand one SVG background color entry, then parse the six
hex digits; `none` models the `ValueError`/`IndexError` raise. -/
def svgParseBgColor (c : String) : Option (Nat × Nat × Nat) :=
  let h0 := lstripHash c.toList
  let h := if h0.length == 3 then dupChars h0 else h0
  match parseHexPair (h.getD 0 ' ') (h.getD 1 ' '),
        parseHexPair (h.getD 2 ' ') (h.getD 3 ' '),
        parseHexPair (h.getD 4 ' ') (h.getD 5 ' ') with
  | some r, some g, some b => some (r, g, b)
  | _, _, _ => none

/-- `create_background_colors` (SVG backend, lines 66-108): same derivation
as the raster version but over the first two entries checked with
`svgBgFormatOk`, producing lowercase hex strings.  Result is
`(bg_inner, bg_outer)`. -/
def create_background_colors (color_palette : List String) : String × String :=
  if color_palette.length < 2 then ("#EEEEEE", "#DDDDDD")
  else
    let c1 := color_palette.getD 0 ""
    let c2 := color_palette.getD 1 ""
    if !(svgBgFormatOk c1 && svgBgFormatOk c2) then ("#EEEEEE", "#DDDDDD")
    else
      match svgParseBgColor c1, svgParseBgColor c2 with
      | some (r1, g1, b1), some (r2, g2, b2) =>
        let rMix := (r1 + r2) / 2
        let gMix := (g1 + g2) / 2
        let bMix := (b1 + b2) / 2
        let hls := rgb_to_hls ((rMix : ℚ) / 255) ((gMix : ℚ) / 255) ((bMix : ℚ) / 255)
        let s' := max 0 (hls.2.2 - 0.1)
        let desat := hls_to_rgb hls.1 hls.2.1 s'
        let rDesat := pyInt (desat.1 * 255)
        let gDesat := pyInt (desat.2.1 * 255)
        let bDesat := pyInt (desat.2.2 * 255)
        let hls2 := rgb_to_hls ((rDesat : ℚ) / 255) ((gDesat : ℚ) / 255) ((bDesat : ℚ) / 255)
        let lLight := min 1 (hls2.2.1 + 0.1)
        let light := hls_to_rgb hls2.1 lLight hls2.2.2
        let inner := fmtHexColor (pyInt (light.1 * 255)).toNat (pyInt (light.2.1 * 255)).toNat
          (pyInt (light.2.2 * 255)).toNat
        let lDark := max 0 (hls2.2.1 - 0.1)
        let dark := hls_to_rgb hls2.1 lDark hls2.2.2
        let outer := fmtHexColor (pyInt (dark.1 * 255)).toNat (pyInt (dark.2.1 * 255)).toNat
          (pyInt (dark.2.2 * 255)).toNat
        (inner, outer)
      | _, _ => ("#EEEEEE", "#DDDDDD")

/-- `get_random_alpha(chaos_factor)` (raster backend). -/
def get_random_alpha (chaos : ℚ) (s : RandState) : Nat × RandState :=
  let (t, s1) := pyRandom s
  if t < chaos * 0.5 then
    let (a, s2) := pyRandint 150 240 s1
    (a.toNat, s2)
  else (255, s1)

/-- `pil_get_two_colors` (raster backend, lines 133-149): one alpha draw,
then filter, then `background` and (only when colors remain) `foreground`
choices, each parsed with `hex_to_rgba` which may raise. -/
def pil_get_two_colors (palette : List String) (chaos : ℚ) (st : RandState) :
    Except Unit ((Rgba × Rgba) × RandState) :=
  let (alpha, st1) := get_random_alpha chaos st
  if palette.isEmpty then .ok ((⟨51, 51, 51, alpha⟩, ⟨204, 204, 204, 255⟩), st1)
  else
    let valid := validColors palette
    if valid.isEmpty then .ok ((⟨51, 51, 51, alpha⟩, ⟨204, 204, 204, 255⟩), st1)
    else
      let (bgHex, st2) := pyChoice valid "" st1
      match hex_to_rgba bgHex 255 with
      | .error e => .error e
      | .ok bgRgba =>
        let remaining := valid.filter (fun c => c ≠ bgHex)
        if remaining.isEmpty then
          match hex_to_rgba (valid.headD "") alpha with
          | .error e => .error e
          | .ok fgRgba => .ok ((fgRgba, bgRgba), st2)
        else
          let (fgHex, st3) := pyChoice remaining "" st2
          match hex_to_rgba fgHex alpha with
          | .error e => .error e
          | .ok fgRgba => .ok ((fgRgba, bgRgba), st3)

/-- `get_two_colors` (SVG backend, lines 110-122).  Result is
`(foreground, background)`.  Note the early single-color return with the
fixed `"#CCCCCC"` background, consuming no draw. -/
def get_two_colors (palette : List String) (st : RandState) :
    (String × String) × RandState :=
  if palette.isEmpty then (("#333333", "#CCCCCC"), st)
  else
    let valid := validColors palette
    if valid.isEmpty then (("#333333", "#CCCCCC"), st)
    else if valid.length = 1 then ((valid.headD "", "#CCCCCC"), st)
    else
      let (bg, st1) := pyChoice valid "" st
      let remaining := valid.filter (fun c => c ≠ bg)
      if remaining.isEmpty then ((valid.headD "", bg), st1)
      else
        let (fg, st2) := pyChoice remaining "" st1
        ((fg, bg), st2)

/-- `get_random_opacity_str` (SVG backend); the opacity value carried by the
produced attribute string. -/
def get_random_opacity_str (chaos : ℚ) (s : RandState) : ℚ × RandState :=
  let (t, s1) := pyRandom s
  if t < chaos * 0.5 then
    let (u, s2) := pyUniform 0.6 0.95 s1
    (pyRound2 u, s2)
  else (1, s1)

/-- The fixed discrete angle set of both backends. -/
def rotationAngles : List Int := [0, 15, 30, 45, 60, 75, 90, -15, -30, -45, -60, -75]

/-- `get_random_rotation_angle(chaos_factor)` (raster backend). -/
def get_random_rotation_angle (chaos : ℚ) (s : RandState) : Int × RandState :=
  let (t, s1) := pyRandom s
  if t < chaos then pyChoice rotationAngles 0 s1 else (0, s1)

/-- The fixed enumeration of the twelve block styles. -/
inductive Style where
  | circle
  | opposite_circles
  | cross
  | half_square
  | diagonal_square
  | quarter_circle
  | dots
  | letter_block
  | concentric_circles
  | stripes
  | rotated_shape
  | wavy_lines
deriving DecidableEq, Repr

/-- `ALL_POSSIBLE_STYLE_NAMES` (identical in both source files). -/
def ALL_POSSIBLE_STYLE_NAMES : List String :=
  ["circle", "opposite_circles", "cross", "half_square",
   "diagonal_square", "quarter_circle", "dots", "letter_block",
   "concentric_circles", "stripes", "rotated_shape", "wavy_lines"]

/-- The twelve styles in the fixed dictionary order of both
`style_function_map` dictionaries. -/
def allStyles : List Style :=
  [.circle, .opposite_circles, .cross, .half_square,
   .diagonal_square, .quarter_circle, .dots, .letter_block,
   .concentric_circles, .stripes, .rotated_shape, .wavy_lines]

/-- Name lookup in the style dictionaries. -/
def styleOfName (n : String) : Option Style :=
  if n = "circle" then some .circle
  else if n = "opposite_circles" then some .opposite_circles
  else if n = "cross" then some .cross
  else if n = "half_square" then some .half_square
  else if n = "diagonal_square" then some .diagonal_square
  else if n = "quarter_circle" then some .quarter_circle
  else if n = "dots" then some .dots
  else if n = "letter_block" then some .letter_block
  else if n = "concentric_circles" then some .concentric_circles
  else if n = "stripes" then some .stripes
  else if n = "rotated_shape" then some .rotated_shape
  else if n = "wavy_lines" then some .wavy_lines
  else none

/-- The glyph set of both `letter_block` generators. -/
def letterCharacters : List Char :=
  ['A', 'B', 'C', 'D', 'E', 'F', 'G', 'H', 'I', 'J', 'K', 'L', 'M',
   'N', 'O', 'P', 'Q', 'R', 'S', 'T', 'U', 'V', 'W', 'X', 'Y', 'Z',
   '0', '1', '2', '3', '4', '5', '6', '7', '8', '9',
   '+', '-', '*', '/', '=', '#', '@', '&', '%', '$', '!', '?']

/-- One primitive Pillow drawing operation, with the exact numeric arguments
the source passes to `ImageDraw`. -/
inductive Shape where
  | rect (x1 y1 x2 y2 : ℚ) (c : Rgba)
  | ellipse (x1 y1 x2 y2 : ℚ) (c : Rgba)
  | polygon (pts : List (ℚ × ℚ)) (c : Rgba)
  | lineSeg (x1 y1 x2 y2 : ℚ) (c : Rgba) (width : Int)
  | polyline (pts : List (Int × Int)) (c : Rgba) (width : Int)
  | pieslice (x1 y1 x2 y2 : ℚ) (startAngle endAngle : Int) (c : Rgba)
  | glyph (ch : Char) (fontSize : Int) (cx cy : ℚ) (c : Rgba)
deriving DecidableEq, Repr

/-- A command on the main raster canvas: either a direct primitive, or
`draw_rotated_image` of a temporary transparent buffer holding `temp`,
pasted at cell origin `(x, y)` after rotation by `angle` degrees. -/
inductive Cmd where
  | draw (sh : Shape)
  | rotPaste (temp : List Shape) (x y : Int) (angle : Int)
deriving DecidableEq, Repr

/-- `draw_pil_circle` (lines 152-169). -/
def draw_pil_circle (x y sq : Int) (fg bg : Rgba) (chaos : ℚ) (st : RandState) :
    List Cmd × RandState :=
  let bgRect := Cmd.draw (.rect (x : ℚ) (y : ℚ) ((x + sq : Int) : ℚ) ((y + sq : Int) : ℚ) bg)
  let (rf, s1) := pyUniform (0.8 - chaos * 0.2) 1.0 st
  let r := ((sq : ℚ) / 2) * rf
  let cx := (x : ℚ) + (sq : ℚ) / 2
  let cy := (y : ℚ) + (sq : ℚ) / 2
  let mainC := Cmd.draw (.ellipse (cx - r) (cy - r) (cx + r) (cy + r) fg)
  let (t, s2) := pyRandom s1
  if t < 0.3 + chaos * 0.3 then
    let (irf, s3) := pyUniform 0.2 0.5 s2
    let ir := ((sq : ℚ) / 2) * irf
    let innerColor : Rgba := ⟨bg.r, bg.g, bg.b, fg.a⟩
    let innerC := Cmd.draw (.ellipse (cx - ir) (cy - ir) (cx + ir) (cy + ir) innerColor)
    let (t2, s4) := pyRandom s3
    if t2 < chaos * 0.5 then
      let tiny := ir * 0.5
      ([bgRect, mainC, innerC,
        Cmd.draw (.ellipse (cx - tiny) (cy - tiny) (cx + tiny) (cy + tiny) fg)], s4)
    else ([bgRect, mainC, innerC], s4)
  else ([bgRect, mainC], s2)

/-- `draw_pil_opposite_circles` (lines 172-190).  Note the consumed but
unused `r_factor` draw, and the two circles at the quarter points. -/
def draw_pil_opposite_circles (x y sq : Int) (fg bg : Rgba) (chaos : ℚ) (st : RandState) :
    List Cmd × RandState :=
  let bgRect := Cmd.draw (.rect (x : ℚ) (y : ℚ) ((x + sq : Int) : ℚ) ((y + sq : Int) : ℚ) bg)
  let (_rFactor, s1) := pyUniform 0.4 0.6 st
  let qss := (sq : ℚ) / 4
  let (jq, s2) := pyUniform 0.8 1.2 s1
  let qRadius := qss * jq
  ([bgRect,
    Cmd.draw (.ellipse ((x : ℚ) + qss - qRadius) ((y : ℚ) + qss - qRadius)
      ((x : ℚ) + qss + qRadius) ((y : ℚ) + qss + qRadius) fg),
    Cmd.draw (.ellipse ((x : ℚ) + 3 * qss - qRadius) ((y : ℚ) + 3 * qss - qRadius)
      ((x : ℚ) + 3 * qss + qRadius) ((y : ℚ) + 3 * qss + qRadius) fg)], s2)

/-- `draw_pil_cross` (lines 193-216).  The cross is drawn on a temporary
transparent buffer, then rotation-pasted at the cell origin. -/
def draw_pil_cross (x y sq : Int) (fg bg : Rgba) (chaos : ℚ) (st : RandState) :
    List Cmd × RandState :=
  let bgRect := Cmd.draw (.rect (x : ℚ) (y : ℚ) ((x + sq : Int) : ℚ) ((y + sq : Int) : ℚ) bg)
  let (tPlus, s1) := pyRandom st
  let isPlus := tPlus < 0.5
  let (tf, s2) := pyUniform (0.25 - chaos * 0.1) (0.4 + chaos * 0.1) s1
  let thickness : Int := pyInt ((sq : ℚ) * tf)
  let temp : List Shape :=
    if isPlus then
      [.rect 0 (((sq - thickness).fdiv 2 : Int) : ℚ) (sq : ℚ) (((sq + thickness).fdiv 2 : Int) : ℚ) fg,
       .rect (((sq - thickness).fdiv 2 : Int) : ℚ) 0 (((sq + thickness).fdiv 2 : Int) : ℚ) (sq : ℚ) fg]
    else
      let lw0 := pyInt ((thickness : ℚ) * 0.8)
      let lw := if lw0 < 1 then 1 else lw0
      [.lineSeg 0 0 (sq : ℚ) (sq : ℚ) fg lw,
       .lineSeg (sq : ℚ) 0 0 (sq : ℚ) fg lw]
  let (angle, s3) := get_random_rotation_angle (chaos / 2) s2
  ([bgRect, Cmd.rotPaste temp x y angle], s3)

/-- `draw_pil_half_square` (lines 219-229). -/
def draw_pil_half_square (x y sq : Int) (fg bg : Rgba) (chaos : ℚ) (st : RandState) :
    List Cmd × RandState :=
  let bgRect := Cmd.draw (.rect (x : ℚ) (y : ℚ) ((x + sq : Int) : ℚ) ((y + sq : Int) : ℚ) bg)
  let (dir, s1) := pyChoice (["top", "right", "bottom", "left"] : List String) "top" st
  let xq := (x : ℚ)
  let yq := (y : ℚ)
  let sqq := (sq : ℚ)
  let fgRect :=
    if dir = "top" then Shape.rect xq yq (xq + sqq) (yq + sqq / 2) fg
    else if dir = "right" then Shape.rect (xq + sqq / 2) yq (xq + sqq) (yq + sqq) fg
    else if dir = "bottom" then Shape.rect xq (yq + sqq / 2) (xq + sqq) (yq + sqq) fg
    else Shape.rect xq yq (xq + sqq / 2) (yq + sqq) fg
  ([bgRect, Cmd.draw fgRect], s1)

/-- `draw_pil_diagonal_square` (lines 232-246). -/
def draw_pil_diagonal_square (x y sq : Int) (fg bg : Rgba) (chaos : ℚ) (st : RandState) :
    List Cmd × RandState :=
  let bgRect := Cmd.draw (.rect (x : ℚ) (y : ℚ) ((x + sq : Int) : ℚ) ((y + sq : Int) : ℚ) bg)
  let xq := (x : ℚ)
  let yq := (y : ℚ)
  let sqq := (sq : ℚ)
  let (tDir, s1) := pyRandom st
  let pts : List (ℚ × ℚ) :=
    if tDir < 0.5 then [(xq, yq), (xq + sqq, yq + sqq), (xq, yq + sqq)]
    else [(xq + sqq, yq), (xq + sqq, yq + sqq), (xq, yq)]
  let (tJit, s2) := pyRandom s1
  if tJit < chaos * 0.5 then
    let (idx, s3) := pyRandint 0 2 s2
    let (j1, s4) := pyRandom s3
    let (j2, s5) := pyRandom s4
    let jx := (j1 - 0.5) * sqq * 0.1 * chaos
    let jy := (j2 - 0.5) * sqq * 0.1 * chaos
    let p := pts.getD idx.toNat (0, 0)
    let pts' := pts.set idx.toNat (p.1 + jx, p.2 + jy)
    ([bgRect, Cmd.draw (.polygon pts' fg)], s5)
  else ([bgRect, Cmd.draw (.polygon pts fg)], s2)

/-- `draw_pil_quarter_circle` (lines 249-261). -/
def draw_pil_quarter_circle (x y sq : Int) (fg bg : Rgba) (chaos : ℚ) (st : RandState) :
    List Cmd × RandState :=
  let bgRect := Cmd.draw (.rect (x : ℚ) (y : ℚ) ((x + sq : Int) : ℚ) ((y + sq : Int) : ℚ) bg)
  let (corner, s1) := pyChoice (["top-left", "top-right", "bottom-right", "bottom-left"] : List String) "top-left" st
  let bbox := ((x : ℚ), (y : ℚ), ((x + sq : Int) : ℚ), ((y + sq : Int) : ℚ))
  let sl :=
    if corner = "top-left" then Shape.pieslice bbox.1 bbox.2.1 bbox.2.2.1 bbox.2.2.2 180 270 fg
    else if corner = "top-right" then Shape.pieslice bbox.1 bbox.2.1 bbox.2.2.1 bbox.2.2.2 270 360 fg
    else if corner = "bottom-right" then Shape.pieslice bbox.1 bbox.2.1 bbox.2.2.1 bbox.2.2.2 0 90 fg
    else Shape.pieslice bbox.1 bbox.2.1 bbox.2.2.1 bbox.2.2.2 90 180 fg
  ([bgRect, Cmd.draw sl], s1)

/-- `draw_pil_dots` (lines 264-277). -/
def draw_pil_dots (x y sq : Int) (fg bg : Rgba) (chaos : ℚ) (st : RandState) :
    List Cmd × RandState :=
  let bgRect := Cmd.draw (.rect (x : ℚ) (y : ℚ) ((x + sq : Int) : ℚ) ((y + sq : Int) : ℚ) bg)
  let choices : List Nat := [4, 9, 16, if chaos > 0.5 then 25 else 16]
  let (n, s1) := pyChoice choices 4 st
  let k := intSqrt n
  let cell : ℚ := (sq : ℚ) / (k : ℚ)
  let dotStep := fun (i j : Nat) (acc : List Cmd × RandState) =>
    let (cmds, st0) := acc
    let (t, st1) := pyRandom st0
    if t < chaos * 0.2 then (cmds, st1)
    else
      let (u, st2) := pyUniform 0.2 (0.4 + chaos * 0.1) st1
      let dotR := cell * u / 2
      let (a1, st3) := pyRandom st2
      let cx := (x : ℚ) + ((i : ℚ) + 0.5) * cell + (a1 - 0.5) * cell * 0.2 * chaos
      let (a2, st4) := pyRandom st3
      let cy := (y : ℚ) + ((j : ℚ) + 0.5) * cell + (a2 - 0.5) * cell * 0.2 * chaos
      let dotR' := if dotR < 1 then 1 else dotR
      (cmds ++ [Cmd.draw (.ellipse (cx - dotR') (cy - dotR') (cx + dotR') (cy + dotR') fg)], st4)
  (List.range k).foldl
    (fun acc i => (List.range k).foldl (fun acc2 j => dotStep i j acc2) acc)
    ([bgRect], s1)

/-- `draw_pil_letter_block` (lines 280-320).  Font resolution and the
Pillow-version text-measuring branches do not consume the PRNG stream; the
modern `anchor="mm"` path is recorded.  The glyph is drawn on a temporary
buffer and rotation-pasted. -/
def draw_pil_letter_block (x y sq : Int) (fg bg : Rgba) (chaos : ℚ) (st : RandState) :
    List Cmd × RandState :=
  let bgRect := Cmd.draw (.rect (x : ℚ) (y : ℚ) ((x + sq : Int) : ℚ) ((y + sq : Int) : ℚ) bg)
  let (ch, s1) := pyChoice letterCharacters 'A' st
  let (fsf, s2) := pyUniform (0.6 - chaos * 0.1) (0.9 + chaos * 0.1) s1
  let fontSize := max 10 (pyInt ((sq : ℚ) * fsf))
  let temp : List Shape := [.glyph ch fontSize ((sq : ℚ) / 2) ((sq : ℚ) / 2) fg]
  let (angle, s3) := get_random_rotation_angle (chaos * 0.8) s2
  ([bgRect, Cmd.rotPaste temp x y angle], s3)

/-- `draw_pil_concentric_circles` (lines 323-345).  Radii below 1 are
skipped without consuming draws and without toggling the color flag. -/
def draw_pil_concentric_circles (x y sq : Int) (fg bg : Rgba) (chaos : ℚ) (st : RandState) :
    List Cmd × RandState :=
  let bgRect := Cmd.draw (.rect (x : ℚ) (y : ℚ) ((x + sq : Int) : ℚ) ((y + sq : Int) : ℚ) bg)
  let centerX := (x : ℚ) + (sq : ℚ) / 2
  let centerY := (y : ℚ) + (sq : ℚ) / 2
  let (nc, s1) := pyRandint (2 + pyInt (chaos * 2)) (5 + pyInt (chaos * 3)) st
  let (mru, s2) := pyUniform 0.85 1.0 s1
  let maxR := (sq : ℚ) / 2 * mru
  let circleStep := fun (i : Nat) (acc : List Cmd × RandState × Bool) =>
    let (cmds, st0, isFg) := acc
    let radius := maxR * ((i : ℚ) / (nc : ℚ))
    if radius < 1 then (cmds, st0, isFg)
    else
      let base := if isFg then fg else bg
      let (ca, st1) := get_random_alpha chaos st0
      let finalAlpha := min base.a ca
      let color : Rgba := ⟨base.r, base.g, base.b, finalAlpha⟩
      let (o1, st2) := pyRandom st1
      let (o2, st3) := pyRandom st2
      let cx := centerX + (o1 - 0.5) * (sq : ℚ) * 0.05 * chaos
      let cy := centerY + (o2 - 0.5) * (sq : ℚ) * 0.05 * chaos
      (cmds ++ [Cmd.draw (.ellipse (cx - radius) (cy - radius) (cx + radius) (cy + radius) color)],
       st3, !isFg)
  let res := ((List.range nc.toNat).reverse.map (fun m => m + 1)).foldl
    (fun acc i => circleStep i acc) ([bgRect], s2, true)
  (res.1, res.2.1)

/-- `draw_pil_stripes` (lines 348-372).  Both `or`/`and` short-circuits of
the source determine whether a draw is consumed. -/
def draw_pil_stripes (x y sq : Int) (fg bg : Rgba) (chaos : ℚ) (st : RandState) :
    List Cmd × RandState :=
  let bgRect := Cmd.draw (.rect (x : ℚ) (y : ℚ) ((x + sq : Int) : ℚ) ((y + sq : Int) : ℚ) bg)
  let (ns, s1) := pyRandint (3 + pyInt (chaos * 2)) (7 + pyInt (chaos * 4)) st
  let (isH, s2) := pyChoice ([true, false] : List Bool) true s1
  let stripeStep := fun (i : Nat) (acc : List Cmd × RandState) =>
    let (cmds, st0) := acc
    let (baseIsFg, st1) :=
      if i % 2 = 0 then (true, st0)
      else
        let (t, st') := pyRandom st0
        (t < chaos * 0.3, st')
    let base := if baseIsFg then fg else bg
    let (ca, st2) := get_random_alpha chaos st1
    let finalAlpha := min base.a ca
    let stripeColor : Rgba := ⟨base.r, base.g, base.b, finalAlpha⟩
    let (skip, st3) :=
      if stripeColor = bg then
        let (t2, st') := pyRandom st2
        (t2 < chaos * 0.6, st')
      else (false, st2)
    if skip then (cmds, st3)
    else
      let baseThickness := (sq : ℚ) / (ns : ℚ)
      let (tv, st4) := pyUniform (0.7 - chaos * 0.2) (1.3 + chaos * 0.2) st3
      let thicknessVar := baseThickness * tv
      let stripeThickness := pyInt (max 1 thicknessVar)
      if isH then
        let yPos := pyInt ((y : ℚ) + (i : ℚ) * baseThickness)
        (cmds ++ [Cmd.draw (.rect (x : ℚ) (yPos : ℚ) ((x + sq : Int) : ℚ)
          ((yPos + stripeThickness : Int) : ℚ) stripeColor)], st4)
      else
        let xPos := pyInt ((x : ℚ) + (i : ℚ) * baseThickness)
        (cmds ++ [Cmd.draw (.rect (xPos : ℚ) (y : ℚ) ((xPos + stripeThickness : Int) : ℚ)
          ((y + sq : Int) : ℚ) stripeColor)], st4)
  (List.range ns.toNat).foldl (fun acc i => stripeStep i acc) ([bgRect], s2)

/-- `draw_pil_rotated_shape` (lines 375-403).  The inner shape is drawn on a
temporary buffer and rotation-pasted. -/
def draw_pil_rotated_shape (x y sq : Int) (fg bg : Rgba) (chaos : ℚ) (st : RandState) :
    List Cmd × RandState :=
  let bgRect := Cmd.draw (.rect (x : ℚ) (y : ℚ) ((x + sq : Int) : ℚ) ((y + sq : Int) : ℚ) bg)
  let (shapeType, s1) := pyChoice (["rect", "circle", "ellipse"] : List String) "rect" st
  let (isf, s2) := pyUniform (0.5 - chaos * 0.1) (0.8 + chaos * 0.1) s1
  let inner := (sq : ℚ) * isf
  let scx := (sq : ℚ) / 2
  let scy := (sq : ℚ) / 2
  let (temp, s4) :=
    if shapeType = "rect" then
      let (wu, s3a) := pyUniform 0.7 1.3 s2
      let (hu, s3b) := pyUniform 0.7 1.3 s3a
      let rw := max 1 (min (inner * wu) ((sq : ℚ) * 0.9))
      let rh := max 1 (min (inner * hu) ((sq : ℚ) * 0.9))
      ([Shape.rect (scx - rw / 2) (scy - rh / 2) (scx + rw / 2) (scy + rh / 2) fg], s3b)
    else
      let (ru, s3a) := pyUniform 0.7 (if shapeType = "ellipse" then 1.3 else 1.0) s2
      let (rv, s3b) := pyUniform 0.7 (if shapeType = "ellipse" then 1.3 else 1.0) s3a
      let rx := max 1 (inner / 2 * ru)
      let ry := max 1 (inner / 2 * rv)
      ([Shape.ellipse (scx - rx) (scy - ry) (scx + rx) (scy + ry) fg], s3b)
  let (angle, s5) := get_random_rotation_angle (chaos * 1.5) s4
  ([bgRect, Cmd.rotPaste temp x y angle], s5)

/-- `draw_pil_wavy_lines` (lines 406-437). -/
def draw_pil_wavy_lines (ops : FloatOps) (x y sq : Int) (fg bg : Rgba) (chaos : ℚ)
    (st : RandState) : List Cmd × RandState :=
  let bgRect := Cmd.draw (.rect (x : ℚ) (y : ℚ) ((x + sq : Int) : ℚ) ((y + sq : Int) : ℚ) bg)
  let (nl, s1) := pyRandint (2 + pyInt (chaos * 2)) (5 + pyInt (chaos * 3)) st
  let (isH, s2) := pyChoice ([true, false] : List Bool) true s1
  let (swu, s3) := pyUniform 0.02 (0.05 + chaos * 0.05) s2
  let strokeW := pyInt (max 1 ((sq : ℚ) * swu))
  let lineStep := fun (i : Nat) (acc : List Cmd × RandState) =>
    let (cmds, st0) := acc
    let (ampU, st1) := pyUniform 0.05 (0.2 + chaos * 0.1) st0
    let amplitude := (sq : ℚ) * ampU
    let (freq, st2) := pyUniform 0.5 (2.0 + chaos) st1
    let (nsegI, st3) := pyRandint 10 20 st2
    let nseg := nsegI.toNat
    let ptStep := fun (j : Nat) (acc2 : List (Int × Int) × RandState) =>
      let (pts, stp0) := acc2
      if isH then
        let startY := (y : ℚ) + ((sq : ℚ) / ((nl : ℚ) + 1)) * ((i : ℚ) + 1)
        let px0 := (x : ℚ) + ((sq : ℚ) / (nseg : ℚ)) * (j : ℚ)
        let (tr, stp1) := pyRandom stp0
        let py0 := startY + amplitude * ops.sinPi ((j : ℚ) * freq / (nseg : ℚ)) (tr * chaos)
        let (a1, stp2) := pyRandom stp1
        let px := px0 + (a1 - 0.5) * (sq : ℚ) * 0.01 * chaos
        let (a2, stp3) := pyRandom stp2
        let py := py0 + (a2 - 0.5) * (sq : ℚ) * 0.01 * chaos
        (pts ++ [(pyInt px, pyInt py)], stp3)
      else
        let startX := (x : ℚ) + ((sq : ℚ) / ((nl : ℚ) + 1)) * ((i : ℚ) + 1)
        let py0 := (y : ℚ) + ((sq : ℚ) / (nseg : ℚ)) * (j : ℚ)
        let (tr, stp1) := pyRandom stp0
        let px0 := startX + amplitude * ops.sinPi ((j : ℚ) * freq / (nseg : ℚ)) (tr * chaos)
        let (a1, stp2) := pyRandom stp1
        let px := px0 + (a1 - 0.5) * (sq : ℚ) * 0.01 * chaos
        let (a2, stp3) := pyRandom stp2
        let py := py0 + (a2 - 0.5) * (sq : ℚ) * 0.01 * chaos
        (pts ++ [(pyInt px, pyInt py)], stp3)
    let (pts, st4) := (List.range (nseg + 1)).foldl (fun a j => ptStep j a) ([], st3)
    if pts.length > 1 then
      (cmds ++ [Cmd.draw (.polyline pts fg strokeW)], st4)
    else (cmds, st4)
  (List.range nl.toNat).foldl (fun acc i => lineStep i acc) ([bgRect], s3)

/-- Dispatch over `style_function_map_pil`; the source's membership test on
the rotation-using functions selects syntactically identical calls in both
branches. -/
def pilDrawStyle (ops : FloatOps) (sty : Style) (x y sq : Int) (fg bg : Rgba)
    (chaos : ℚ) (st : RandState) : List Cmd × RandState :=
  match sty with
  | .circle => draw_pil_circle x y sq fg bg chaos st
  | .opposite_circles => draw_pil_opposite_circles x y sq fg bg chaos st
  | .cross => draw_pil_cross x y sq fg bg chaos st
  | .half_square => draw_pil_half_square x y sq fg bg chaos st
  | .diagonal_square => draw_pil_diagonal_square x y sq fg bg chaos st
  | .quarter_circle => draw_pil_quarter_circle x y sq fg bg chaos st
  | .dots => draw_pil_dots x y sq fg bg chaos st
  | .letter_block => draw_pil_letter_block x y sq fg bg chaos st
  | .concentric_circles => draw_pil_concentric_circles x y sq fg bg chaos st
  | .stripes => draw_pil_stripes x y sq fg bg chaos st
  | .rotated_shape => draw_pil_rotated_shape x y sq fg bg chaos st
  | .wavy_lines => draw_pil_wavy_lines ops x y sq fg bg chaos st

/-- The four hand-written default palettes of the raster node. -/
def HAND_WRITTEN_PALETTES : List (List String) :=
  [["#FF6B6B", "#FFD166", "#06D6A0", "#118AB2", "#073B4C"],
   ["#FAD02C", "#F2A104", "#E87007", "#D53903", "#A01F02"],
   ["#22223B", "#4A4E69", "#9A8C98", "#C9ADA7", "#F2E9E4"],
   ["#003049", "#D62828", "#F77F00", "#FCBF49", "#EAE2B7"]]

/-- Python `range(0, 256, 64)`. -/
def range256Step64 : List Nat := (List.range 4).map (fun k => 64 * k)

/-- `generate_triadic_palettes` (raster node, lines 23-36). -/
def generate_triadic_palettes : List (List String) :=
  range256Step64.flatMap (fun r =>
    range256Step64.flatMap (fun g =>
      range256Step64.map (fun b =>
        [fmtHexColorU r g b,
         fmtHexColorU ((g + 128) % 256) ((b + 128) % 256) ((r + 128) % 256),
         fmtHexColorU ((b + 128) % 256) ((r + 128) % 256) ((g + 128) % 256)])))

/-- `DEFAULT_PALETTES_DATA` of the raster node after the
`generate_triadic_palettes` extension (line 38). -/
def DEFAULT_PALETTES_DATA_PIL : List (List String) :=
  HAND_WRITTEN_PALETTES ++ generate_triadic_palettes

/-- `DEFAULT_PALETTES_DATA` of the SVG backend (only the four hand-written
palettes). -/
def DEFAULT_PALETTES_DATA_SVG : List (List String) := HAND_WRITTEN_PALETTES

/-- Characters Python's `str.strip()` removes. -/
def isPySpace (c : Char) : Bool :=
  c == ' ' || c == '\t' || c == '\n' || c == '\x0d' || c == '\x0b' || c == '\x0c'

/-- Python `s.strip()`. -/
def pyStrip (s : String) : String :=
  ⟨((s.toList.dropWhile isPySpace).reverse.dropWhile isPySpace).reverse⟩

/-- Python `s.split(',')`, structurally. -/
def splitCommaAux : List Char → List Char → List String
  | [], acc => [⟨acc.reverse⟩]
  | c :: rest, acc =>
    if c == ',' then ⟨acc.reverse⟩ :: splitCommaAux rest []
    else splitCommaAux rest (c :: acc)

/-- Python `s.split(',')`. -/
def pySplitComma (s : String) : List String := splitCommaAux s.toList []

/-- The style-string resolution of `generate_art_image_pil` (lines 454-458
and 481-483): split on commas, strip, keep known names, fall back to the
full enumeration when nothing survives. -/
def parseBlockStyles (s : String) : List Style :=
  let names :=
    if s.toList ≠ [] ∧ (pyStrip s).toList ≠ [] then
      ((pySplitComma s).map pyStrip).filter (fun n => ALL_POSSIBLE_STYLE_NAMES.contains n)
    else []
  let names := if names = [] then ALL_POSSIBLE_STYLE_NAMES else names
  let active := names.filterMap styleOfName
  if active = [] then allStyles else active

/-- The palette-index clamp of the raster backend (lines 450-452):
`if not (0 <= palette_index < len(DEFAULT_PALETTES_DATA)): palette_index = 0`. -/
def pilResolvePaletteIndex (i : Int) : Nat :=
  if 0 ≤ i ∧ i < (DEFAULT_PALETTES_DATA_PIL.length : Int) then i.toNat else 0

/-- The seed handling of `generate_art_image_pil` (lines 445-448):
`None` or a negative value re-seeds from fresh entropy, any other value
resets the stream to a state fully determined by the seed. -/
def pilSeedInit (seed : Option Int) (mt : Int → Nat → Nat) (entropy : RandState) : RandState :=
  match seed with
  | Option.none => entropy
  | some s => if s < 0 then entropy else ⟨mt s, 0⟩

/-- The diagnostic printed when a big block does not fit. -/
def bigBlockSkipMsg (rows cols mult : Nat) : String :=
  "Skipping big block: Grid size (" ++ toString rows ++ "x" ++ toString cols ++
    ") too small for multiplier " ++ toString mult ++ "."

/-- The per-generation context shared by every cell of the raster backend. -/
structure PilCtx where
  ops : FloatOps
  palette : List String
  chaos : ℚ
  activeStyles : List Style
  square_size : Nat

/-- One iteration of the raster cell loop (lines 485-496): a color pair, a
uniform style choice, then the chosen generator, in that order. -/
def pilCellStep (ctx : PilCtx) (r c : Nat) (acc : List Cmd × RandState) :
    Except Unit (List Cmd × RandState) := do
  let (cmds, st) := acc
  let ((fg, bg), st1) ← pil_get_two_colors ctx.palette ctx.chaos st
  let (sty, st2) := pyChoice ctx.activeStyles Style.circle st1
  let (cellCmds, st3) := pilDrawStyle ctx.ops sty ((c : Int) * (ctx.square_size : Int))
    ((r : Int) * (ctx.square_size : Int)) (ctx.square_size : Int) fg bg ctx.chaos st2
  pure (cmds ++ cellCmds, st3)

/-- The nested `for r_idx ... for c_idx ...` cell loop of the raster
backend, rows outer and columns inner. -/
def pilCellsNested (ctx : PilCtx) (rows cols : Nat) (start : List Cmd × RandState) :
    Except Unit (List Cmd × RandState) :=
  (List.range rows).foldlM
    (fun acc r => (List.range cols).foldlM (fun acc2 c => pilCellStep ctx r c acc2) acc)
    start

/-- One iteration of the raster big-block loop (lines 501-519).  When the
grid is large enough: column offset, row offset, color pair, style choice,
generator at the enlarged size; otherwise only a diagnostic, consuming no
draw. -/
def pilBigBlockStep (ctx : PilCtx) (rows cols mult : Nat)
    (acc : List Cmd × List String × RandState) :
    Except Unit (List Cmd × List String × RandState) :=
  let (cmds, diags, st) := acc
  if mult ≤ rows ∧ mult ≤ cols then do
    let (bbCol, st1) := pyRandint 0 ((cols : Int) - (mult : Int)) st
    let (bbRow, st2) := pyRandint 0 ((rows : Int) - (mult : Int)) st1
    let bbX := bbCol * (ctx.square_size : Int)
    let bbY := bbRow * (ctx.square_size : Int)
    let bigS := (mult : Int) * (ctx.square_size : Int)
    let ((fg, bg), st3) ← pil_get_two_colors ctx.palette ctx.chaos st2
    let (sty, st4) := pyChoice ctx.activeStyles Style.circle st3
    let (bCmds, st5) := pilDrawStyle ctx.ops sty bbX bbY bigS fg bg ctx.chaos st4
    pure (cmds ++ bCmds, diags, st5)
  else
    pure (cmds, diags ++ [bigBlockSkipMsg rows cols mult], st)

/-- The `for _ in range(num_big_blocks)` loop of the raster backend. -/
def pilBigBlocks (ctx : PilCtx) (rows cols mult count : Nat)
    (acc : List Cmd × List String × RandState) :
    Except Unit (List Cmd × List String × RandState) :=
  (List.range count).foldlM (fun a _ => pilBigBlockStep ctx rows cols mult a) acc

/-- `generate_art_image_pil` from an already-initialized PRNG state: palette
resolution (clamped), style resolution, background rectangles, the cell
loop, then optionally the big-block loop.  The result is the command trace,
the emitted diagnostics, and the final PRNG state. -/
def generate_art_image_pil_from (ops : FloatOps) (num_rows num_cols square_size : Nat)
    (palette_index : Int) (block_styles_str : String) (big_block_enabled : Bool)
    (big_block_size_multiplier num_big_blocks : Nat) (chaos : ℚ) (st0 : RandState) :
    Except Unit (List Cmd × List String × RandState) :=
  let selected := DEFAULT_PALETTES_DATA_PIL.getD (pilResolvePaletteIndex palette_index) []
  let active := parseBlockStyles block_styles_str
  let w : Nat := num_cols * square_size
  let h : Nat := num_rows * square_size
  let bgc := pil_create_background_colors selected
  let outerRect := Cmd.draw (.rect 0 0 (w : ℚ) (h : ℚ) bgc.2)
  let inset : Int := max 10 (pyInt ((min w h : Nat) * (0.1 : ℚ)))
  let bgCmds :=
    if (w : Int) > 2 * inset ∧ (h : Int) > 2 * inset then
      [outerRect, Cmd.draw (.rect (inset : ℚ) (inset : ℚ) (((w : Int) - inset : Int) : ℚ)
        (((h : Int) - inset : Int) : ℚ) bgc.1)]
    else [outerRect]
  let ctx : PilCtx := ⟨ops, selected, chaos, active, square_size⟩
  match pilCellsNested ctx num_rows num_cols ([], st0) with
  | .error e => .error e
  | .ok (cellCmds, st1) =>
    if big_block_enabled then
      pilBigBlocks ctx num_rows num_cols big_block_size_multiplier num_big_blocks
        (bgCmds ++ cellCmds, [], st1)
    else
      .ok (bgCmds ++ cellCmds, [], st1)

/-- `generate_art_image_pil` (lines 441-521): seed the stream per
`pilSeedInit`, then run the pipeline. -/
def generate_art_image_pil (ops : FloatOps) (mt : Int → Nat → Nat)
    (num_rows num_cols square_size : Nat) (palette_index : Int) (block_styles_str : String)
    (big_block_enabled : Bool) (big_block_size_multiplier num_big_blocks : Nat)
    (chaos : ℚ) (seed_value : Option Int) (entropy : RandState) :
    Except Unit (List Cmd × List String × RandState) :=
  generate_art_image_pil_from ops num_rows num_cols square_size palette_index
    block_styles_str big_block_enabled big_block_size_multiplier num_big_blocks chaos
    (pilSeedInit seed_value mt entropy)

/-- An SVG `rotate(angle cx cy)` transform value. -/
structure SvgTransform where
  angle : Int
  cx : ℚ
  cy : ℚ
deriving DecidableEq, Repr

/-- `get_random_rotation_transform` (SVG backend, lines 129-134): the
condition draw happens first, then (only on success) the angle choice; a
transform string is always produced. -/
def get_random_rotation_transform (chaos : ℚ) (cx cy : ℚ) (st : RandState) :
    SvgTransform × RandState :=
  let (t, s1) := pyRandom st
  if t < chaos then
    let (a, s2) := pyChoice rotationAngles 0 s1
    (⟨a, cx, cy⟩, s2)
  else (⟨0, cx, cy⟩, s1)

/-- One svgwrite element, with the exact numeric attributes the source
passes.  `opacity = none` models an element built without an `opacity`
keyword. -/
inductive SvgShape where
  | rect (x y w h : ℚ) (fill : String)
  | circle (cx cy r : ℚ) (fill : String) (opacity : Option ℚ)
  | ellipse (cx cy rx ry : ℚ) (fill : String)
  | polygon (pts : List (ℚ × ℚ)) (fill : String)
  | qpath (mx my lx ly r ex ey : ℚ) (fill : String)
  | wavyPath (sx sy : ℚ) (segs : List (ℚ × ℚ × ℚ × ℚ × ℚ × ℚ)) (stroke : String)
      (strokeWidth : ℚ) (opacity : ℚ)
  | glyphText (ch : Char) (cx cy : ℚ) (fontSize : ℚ) (fill : String) (opacity : ℚ)
      (transform : SvgTransform)
deriving DecidableEq, Repr

/-- A child of one cell/big-block group: a direct shape, or a nested
`svgwrite.container.Group` carrying transform/opacity attributes. -/
inductive SvgNode where
  | sh (s : SvgShape)
  | group (transform : Option SvgTransform) (opacity : ℚ) (children : List SvgShape)
deriving DecidableEq, Repr

/-- `draw_circle` (SVG backend, lines 138-155). -/
def draw_circle (x y sq : Int) (fg bg : String) (chaos : ℚ) (st : RandState) :
    List SvgNode × RandState :=
  let xq := (x : ℚ)
  let yq := (y : ℚ)
  let sqq := (sq : ℚ)
  let bgRect := SvgNode.sh (.rect xq yq sqq sqq bg)
  let (rf, s1) := pyUniform (0.8 - chaos * 0.2) 1.0 st
  let (op1, s2) := get_random_opacity_str chaos s1
  let mainC := SvgNode.sh (.circle (xq + sqq / 2) (yq + sqq / 2) (sqq / 2 * rf) fg (some op1))
  let (t, s3) := pyRandom s2
  if t < 0.3 + chaos * 0.3 then
    let (irf, s4) := pyUniform 0.2 0.5 s3
    let (op2, s5) := get_random_opacity_str chaos s4
    let innerC := SvgNode.sh (.circle (xq + sqq / 2) (yq + sqq / 2) (sqq / 2 * irf) bg (some op2))
    let (t2, s6) := pyRandom s5
    if t2 < chaos * 0.5 then
      let (op3, s7) := get_random_opacity_str chaos s6
      ([bgRect, mainC, innerC,
        SvgNode.sh (.circle (xq + sqq / 2) (yq + sqq / 2) (sqq / 2 * irf * 0.5) fg (some op3))], s7)
    else ([bgRect, mainC, innerC], s6)
  else ([bgRect, mainC], s3)

/-- `draw_opposite_circles` (SVG backend, lines 157-169).  Both circle
centers evaluate to the cell center `(x + size/2, y + size/2)`, and the
radius is `size * uniform(0.4, 0.6)`. -/
def draw_opposite_circles (x y sq : Int) (fg bg : String) (chaos : ℚ) (st : RandState) :
    List SvgNode × RandState :=
  let xq := (x : ℚ)
  let yq := (y : ℚ)
  let sqq := (sq : ℚ)
  let bgRect := SvgNode.sh (.rect xq yq sqq sqq bg)
  let (rf, s1) := pyUniform 0.4 0.6 st
  let radius := sqq * rf
  let offset := sqq / 2
  let (op1, s2) := get_random_opacity_str chaos s1
  let c1 := SvgNode.sh (.circle (xq + offset) (yq + offset) radius fg (some op1))
  let (op2, s3) := get_random_opacity_str chaos s2
  let c2 := SvgNode.sh (.circle (xq + sqq - offset) (yq + sqq - offset) radius fg (some op2))
  ([bgRect, c1, c2], s3)

/-- `draw_cross` (SVG backend, lines 171-206). -/
def draw_cross (ops : FloatOps) (x y sq : Int) (fg bg : String) (chaos : ℚ) (st : RandState) :
    List SvgNode × RandState :=
  let xq := (x : ℚ)
  let yq := (y : ℚ)
  let sqq := (sq : ℚ)
  let bgRect := SvgNode.sh (.rect xq yq sqq sqq bg)
  let (tPlus, s1) := pyRandom st
  let isPlus := tPlus < 0.5
  let (tf, s2) := pyUniform (0.25 - chaos * 0.1) (0.4 + chaos * 0.1) s1
  let thickness := sqq * tf
  let (tr, s3) := get_random_rotation_transform (chaos / 2) (xq + sqq / 2) (yq + sqq / 2) s2
  let (gop, s4) := get_random_opacity_str chaos s3
  let children : List SvgShape :=
    if isPlus then
      [.rect xq (yq + (sqq - thickness) / 2) sqq thickness fg,
       .rect (xq + (sqq - thickness) / 2) yq thickness sqq fg]
    else
      let lw := thickness * 0.8
      let len1r := ops.sqrtQ (sqq ^ 2 + sqq ^ 2)
      let len1 := if len1r = 0 then 1 else len1r
      let nx1 := -sqq / len1
      let ny1 := sqq / len1
      let poly1 : List (ℚ × ℚ) :=
        [(xq + nx1 * lw / 2, yq + ny1 * lw / 2),
         (xq + sqq + nx1 * lw / 2, yq + sqq + ny1 * lw / 2),
         (xq + sqq - nx1 * lw / 2, yq + sqq - ny1 * lw / 2),
         (xq - nx1 * lw / 2, yq - ny1 * lw / 2)]
      let len2r := ops.sqrtQ ((-sqq) ^ 2 + sqq ^ 2)
      let len2 := if len2r = 0 then 1 else len2r
      let nx2 := -sqq / len2
      let ny2 := -sqq / len2
      let poly2 : List (ℚ × ℚ) :=
        [(xq + sqq + nx2 * lw / 2, yq + ny2 * lw / 2),
         (xq + nx2 * lw / 2, yq + sqq + ny2 * lw / 2),
         (xq - nx2 * lw / 2, yq + sqq - ny2 * lw / 2),
         (xq + sqq - nx2 * lw / 2, yq - ny2 * lw / 2)]
      [.polygon poly1 fg, .polygon poly2 fg]
  ([bgRect, SvgNode.group (some tr) gop children], s4)

/-- `draw_half_square` (SVG backend, lines 209-218). -/
def draw_half_square (x y sq : Int) (fg bg : String) (chaos : ℚ) (st : RandState) :
    List SvgNode × RandState :=
  let xq := (x : ℚ)
  let yq := (y : ℚ)
  let sqq := (sq : ℚ)
  let bgRect := SvgNode.sh (.rect xq yq sqq sqq bg)
  let (gop, s1) := get_random_opacity_str chaos st
  let (dir, s2) := pyChoice (["top", "right", "bottom", "left"] : List String) "top" s1
  let pts : List (ℚ × ℚ) :=
    if dir = "top" then [(xq, yq), (xq + sqq, yq), (xq + sqq, yq + sqq / 2), (xq, yq + sqq / 2)]
    else if dir = "right" then
      [(xq + sqq / 2, yq), (xq + sqq, yq), (xq + sqq, yq + sqq), (xq + sqq / 2, yq + sqq)]
    else if dir = "bottom" then
      [(xq, yq + sqq / 2), (xq + sqq, yq + sqq / 2), (xq + sqq, yq + sqq), (xq, yq + sqq)]
    else [(xq, yq), (xq + sqq / 2, yq), (xq + sqq / 2, yq + sqq), (xq, yq + sqq)]
  ([bgRect, SvgNode.group Option.none gop [.polygon pts fg]], s2)

/-- `draw_diagonal_square` (SVG backend, lines 220-231). -/
def draw_diagonal_square (x y sq : Int) (fg bg : String) (chaos : ℚ) (st : RandState) :
    List SvgNode × RandState :=
  let xq := (x : ℚ)
  let yq := (y : ℚ)
  let sqq := (sq : ℚ)
  let bgRect := SvgNode.sh (.rect xq yq sqq sqq bg)
  let (gop, s1) := get_random_opacity_str chaos st
  let (tDir, s2) := pyRandom s1
  let pts : List (ℚ × ℚ) :=
    if tDir < 0.5 then [(xq, yq), (xq + sqq, yq + sqq), (xq, yq + sqq)]
    else [(xq + sqq, yq), (xq + sqq, yq + sqq), (xq, yq)]
  let (tJit, s3) := pyRandom s2
  if tJit < chaos * 0.5 then
    let (idx, s4) := pyRandint 0 2 s3
    let (j1, s5) := pyRandom s4
    let (j2, s6) := pyRandom s5
    let p := pts.getD idx.toNat (0, 0)
    let pts' := pts.set idx.toNat
      (p.1 + (j1 - 0.5) * sqq * 0.1 * chaos, p.2 + (j2 - 0.5) * sqq * 0.1 * chaos)
    ([bgRect, SvgNode.group Option.none gop [.polygon pts' fg]], s6)
  else ([bgRect, SvgNode.group Option.none gop [.polygon pts fg]], s3)

/-- `draw_quarter_circle` (SVG backend, lines 233-246). -/
def draw_quarter_circle (x y sq : Int) (fg bg : String) (chaos : ℚ) (st : RandState) :
    List SvgNode × RandState :=
  let xq := (x : ℚ)
  let yq := (y : ℚ)
  let sqq := (sq : ℚ)
  let bgRect := SvgNode.sh (.rect xq yq sqq sqq bg)
  let (gop, s1) := get_random_opacity_str chaos st
  let (corner, s2) := pyChoice
    (["top-left", "top-right", "bottom-right", "bottom-left"] : List String) "top-left" s1
  let (rfac, s3) := pyUniform (0.8 - chaos * 0.2) (1.2 + chaos * 0.2) s2
  let r := max (sqq * 0.1) (min (sqq * rfac) (sqq * 1.5))
  let p : SvgShape :=
    if corner = "top-left" then .qpath xq yq (xq + r) yq r xq (yq + r) fg
    else if corner = "top-right" then
      .qpath (xq + sqq) yq (xq + sqq - r) yq r (xq + sqq) (yq + r) fg
    else if corner = "bottom-right" then
      .qpath (xq + sqq) (yq + sqq) (xq + sqq - r) (yq + sqq) r (xq + sqq) (yq + sqq - r) fg
    else .qpath xq (yq + sqq) (xq + r) (yq + sqq) r xq (yq + sqq - r) fg
  ([bgRect, SvgNode.group Option.none gop [p]], s3)

/-- `draw_dots` (SVG backend, lines 248-260). -/
def draw_dots (x y sq : Int) (fg bg : String) (chaos : ℚ) (st : RandState) :
    List SvgNode × RandState :=
  let xq := (x : ℚ)
  let yq := (y : ℚ)
  let sqq := (sq : ℚ)
  let bgRect := SvgNode.sh (.rect xq yq sqq sqq bg)
  let choices : List Nat := [4, 9, 16, if chaos > 0.5 then 25 else 16]
  let (n, s1) := pyChoice choices 4 st
  let k := intSqrt n
  let cell : ℚ := sqq / (k : ℚ)
  let dotStep := fun (i j : Nat) (acc : List SvgNode × RandState) =>
    let (nodes, st0) := acc
    let (t, st1) := pyRandom st0
    if t < chaos * 0.2 then (nodes, st1)
    else
      let (u, st2) := pyUniform 0.2 (0.4 + chaos * 0.1) st1
      let dotRadius := cell * u
      let (a1, st3) := pyRandom st2
      let cx := xq + ((i : ℚ) + 0.5) * cell + (a1 - 0.5) * cell * 0.2 * chaos
      let (a2, st4) := pyRandom st3
      let cy := yq + ((j : ℚ) + 0.5) * cell + (a2 - 0.5) * cell * 0.2 * chaos
      let (op, st5) := get_random_opacity_str chaos st4
      (nodes ++ [SvgNode.sh (.circle cx cy (max 1 dotRadius) fg (some op))], st5)
  (List.range k).foldl
    (fun acc i => (List.range k).foldl (fun acc2 j => dotStep i j acc2) acc)
    ([bgRect], s1)

/-- `draw_letter_block` (SVG backend, lines 262-290). -/
def draw_letter_block (x y sq : Int) (fg bg : String) (chaos : ℚ) (st : RandState) :
    List SvgNode × RandState :=
  let xq := (x : ℚ)
  let yq := (y : ℚ)
  let sqq := (sq : ℚ)
  let bgRect := SvgNode.sh (.rect xq yq sqq sqq bg)
  let (ch, s1) := pyChoice letterCharacters 'A' st
  let (fsf, s2) := pyUniform (0.6 - chaos * 0.1) (0.9 + chaos * 0.1) s1
  let fontSize := max 10 (sqq * fsf)
  let cx := xq + sqq / 2
  let cy := yq + sqq / 2
  let (tr, s3) := get_random_rotation_transform (chaos * 0.8) cx cy s2
  let (op, s4) := get_random_opacity_str chaos s3
  ([bgRect, SvgNode.sh (.glyphText ch cx cy fontSize fg op tr)], s4)

/-- `draw_concentric_circles` (SVG backend, lines 292-305). -/
def draw_concentric_circles (x y sq : Int) (fg bg : String) (chaos : ℚ) (st : RandState) :
    List SvgNode × RandState :=
  let xq := (x : ℚ)
  let yq := (y : ℚ)
  let sqq := (sq : ℚ)
  let bgRect := SvgNode.sh (.rect xq yq sqq sqq bg)
  let centerX := xq + sqq / 2
  let centerY := yq + sqq / 2
  let (nc, s1) := pyRandint (2 + pyInt (chaos * 2)) (5 + pyInt (chaos * 3)) st
  let (mru, s2) := pyUniform 0.85 1.0 s1
  let maxRadius := sqq / 2 * mru
  let circleStep := fun (i : Nat) (acc : List SvgNode × RandState × Bool) =>
    let (nodes, st0, isFg) := acc
    let radius := maxRadius * ((i : ℚ) / (nc : ℚ))
    if radius < 1 then (nodes, st0, isFg)
    else
      let color := if isFg then fg else bg
      let (o1, st1) := pyRandom st0
      let (o2, st2) := pyRandom st1
      let cx := centerX + (o1 - 0.5) * sqq * 0.05 * chaos
      let cy := centerY + (o2 - 0.5) * sqq * 0.05 * chaos
      let (op, st3) := get_random_opacity_str chaos st2
      (nodes ++ [SvgNode.sh (.circle cx cy radius color (some op))], st3, !isFg)
  let res := ((List.range nc.toNat).reverse.map (fun m => m + 1)).foldl
    (fun acc i => circleStep i acc) ([bgRect], s2, true)
  (res.1, res.2.1)

/-- `draw_stripes` (SVG backend, lines 307-325). -/
def draw_stripes (x y sq : Int) (fg bg : String) (chaos : ℚ) (st : RandState) :
    List SvgNode × RandState :=
  let xq := (x : ℚ)
  let yq := (y : ℚ)
  let sqq := (sq : ℚ)
  let bgRect := SvgNode.sh (.rect xq yq sqq sqq bg)
  let (ns, s1) := pyRandint (3 + pyInt (chaos * 2)) (7 + pyInt (chaos * 4)) st
  let (isH, s2) := pyChoice ([true, false] : List Bool) true s1
  let (gop, s3) := get_random_opacity_str chaos s2
  let stripeStep := fun (i : Nat) (acc : List SvgShape × RandState) =>
    let (shapes, st0) := acc
    let (stripeColor, st1) :=
      if i % 2 = 0 then (fg, st0)
      else
        let (t, st') := pyRandom st0
        (if t < chaos * 0.3 then fg else bg, st')
    let (skip, st2) :=
      if stripeColor = bg then
        let (t2, st') := pyRandom st1
        (t2 < chaos * 0.6, st')
      else (false, st1)
    if skip then (shapes, st2)
    else
      let baseThickness := sqq / (ns : ℚ)
      let (tv, st3) := pyUniform (0.7 - chaos * 0.2) (1.3 + chaos * 0.2) st2
      let stripeThickness := max 1 (baseThickness * tv)
      if isH then
        (shapes ++ [SvgShape.rect xq (yq + (i : ℚ) * baseThickness) sqq stripeThickness stripeColor], st3)
      else
        (shapes ++ [SvgShape.rect (xq + (i : ℚ) * baseThickness) yq stripeThickness sqq stripeColor], st3)
  let res := (List.range ns.toNat).foldl (fun acc i => stripeStep i acc) ([], s3)
  ([bgRect, SvgNode.group Option.none gop res.1], res.2)

/-- `draw_rotated_shape` (SVG backend, lines 327-358). -/
def draw_rotated_shape (x y sq : Int) (fg bg : String) (chaos : ℚ) (st : RandState) :
    List SvgNode × RandState :=
  let xq := (x : ℚ)
  let yq := (y : ℚ)
  let sqq := (sq : ℚ)
  let bgRect := SvgNode.sh (.rect xq yq sqq sqq bg)
  let (shapeType, s1) := pyChoice (["rect", "circle", "ellipse"] : List String) "rect" st
  let (isf, s2) := pyUniform (0.5 - chaos * 0.1) (0.8 + chaos * 0.1) s1
  let inner := sqq * isf
  let centerX := xq + sqq / 2
  let centerY := yq + sqq / 2
  let (tr, s3) := get_random_rotation_transform (chaos * 1.5) centerX centerY s2
  let (gop, s4) := get_random_opacity_str chaos s3
  let (children, s7) :=
    if shapeType = "rect" then
      let (wu, s5) := pyUniform 0.7 1.3 s4
      let (hu, s6) := pyUniform 0.7 1.3 s5
      let rw := max 1 (min (inner * wu) (sqq * 0.9))
      let rh := max 1 (min (inner * hu) (sqq * 0.9))
      ([SvgShape.rect (centerX - rw / 2) (centerY - rh / 2) rw rh fg], s6)
    else if shapeType = "circle" then
      ([SvgShape.circle centerX centerY (max 1 (inner / 2)) fg Option.none], s4)
    else
      let (ru, s5) := pyUniform 0.7 1.3 s4
      let (rv, s6) := pyUniform 0.7 1.3 s5
      ([SvgShape.ellipse centerX centerY (max 1 (inner / 2 * ru)) (max 1 (inner / 2 * rv)) fg], s6)
  ([bgRect, SvgNode.group (some tr) gop children], s7)

/-- `draw_wavy_lines` (SVG backend, lines 360-396). -/
def draw_wavy_lines (ops : FloatOps) (x y sq : Int) (fg bg : String) (chaos : ℚ)
    (st : RandState) : List SvgNode × RandState :=
  let xq := (x : ℚ)
  let yq := (y : ℚ)
  let sqq := (sq : ℚ)
  let bgRect := SvgNode.sh (.rect xq yq sqq sqq bg)
  let (nl, s1) := pyRandint (2 + pyInt (chaos * 2)) (5 + pyInt (chaos * 3)) st
  let (isH, s2) := pyChoice ([true, false] : List Bool) true s1
  let (swu, s3) := pyUniform 0.02 (0.05 + chaos * 0.05) s2
  let strokeW := max 1 (sqq * swu)
  let lineStep := fun (i : Nat) (acc : List SvgNode × RandState) =>
    let (nodes, st0) := acc
    let (op, st1) := get_random_opacity_str chaos st0
    let (ampU, st2) := pyUniform 0.05 (0.2 + chaos * 0.1) st1
    let amplitude := sqq * ampU
    let (freq, st3) := pyUniform 0.5 (2.0 + chaos) st2
    let (nsegI, st4) := pyRandint 3 7 st3
    let nseg := nsegI.toNat
    if isH then
      let startY := yq + (sqq / ((nl : ℚ) + 1)) * ((i : ℚ) + 1)
      let segStep := fun (j : Nat) (acc2 : List (ℚ × ℚ × ℚ × ℚ × ℚ × ℚ) × RandState) =>
        let (segs, sp0) := acc2
        let (u1, sp1) := pyUniform (-10) 10 sp0
        let cx1 := xq + (sqq / (nseg : ℚ)) * (j : ℚ) + u1 * chaos * (sqq / 100)
        let (tr1, sp2) := pyRandom sp1
        let (u2, sp3) := pyUniform (-5) 5 sp2
        let cy1 := startY + amplitude * ops.sinPi ((j : ℚ) * freq / (nseg : ℚ)) (tr1 * chaos)
          + u2 * chaos * (sqq / 100)
        let (u3, sp4) := pyUniform (-10) 10 sp3
        let cx2 := xq + (sqq / (nseg : ℚ)) * ((j : ℚ) + 0.5) + u3 * chaos * (sqq / 100)
        let (tr2, sp5) := pyRandom sp4
        let (u4, sp6) := pyUniform (-5) 5 sp5
        let cy2 := startY - amplitude * ops.sinPi (((j : ℚ) + 0.5) * freq / (nseg : ℚ)) (tr2 * chaos)
          + u4 * chaos * (sqq / 100)
        let ex := xq + (sqq / (nseg : ℚ)) * ((j : ℚ) + 1)
        if j < nseg - 1 then
          let (tr3, sp7) := pyRandom sp6
          let ey := startY + amplitude * ops.sinPi (((j : ℚ) + 1) * freq / (nseg : ℚ)) (tr3 * chaos)
          (segs ++ [(pyRound1 cx1, pyRound1 cy1, pyRound1 cx2, pyRound1 cy2, pyRound1 ex, pyRound1 ey)], sp7)
        else
          (segs ++ [(pyRound1 cx1, pyRound1 cy1, pyRound1 cx2, pyRound1 cy2, pyRound1 ex, pyRound1 startY)], sp6)
      let (segs, st5) := (List.range nseg).foldl (fun a j => segStep j a) ([], st4)
      (nodes ++ [SvgNode.sh (.wavyPath xq startY segs fg strokeW op)], st5)
    else
      let startX := xq + (sqq / ((nl : ℚ) + 1)) * ((i : ℚ) + 1)
      let segStep := fun (j : Nat) (acc2 : List (ℚ × ℚ × ℚ × ℚ × ℚ × ℚ) × RandState) =>
        let (segs, sp0) := acc2
        let (u1, sp1) := pyUniform (-10) 10 sp0
        let cy1 := yq + (sqq / (nseg : ℚ)) * (j : ℚ) + u1 * chaos * (sqq / 100)
        let (tr1, sp2) := pyRandom sp1
        let (u2, sp3) := pyUniform (-5) 5 sp2
        let cx1 := startX + amplitude * ops.sinPi ((j : ℚ) * freq / (nseg : ℚ)) (tr1 * chaos)
          + u2 * chaos * (sqq / 100)
        let (u3, sp4) := pyUniform (-10) 10 sp3
        let cy2 := yq + (sqq / (nseg : ℚ)) * ((j : ℚ) + 0.5) + u3 * chaos * (sqq / 100)
        let (tr2, sp5) := pyRandom sp4
        let (u4, sp6) := pyUniform (-5) 5 sp5
        let cx2 := startX - amplitude * ops.sinPi (((j : ℚ) + 0.5) * freq / (nseg : ℚ)) (tr2 * chaos)
          + u4 * chaos * (sqq / 100)
        let ey := yq + (sqq / (nseg : ℚ)) * ((j : ℚ) + 1)
        if j < nseg - 1 then
          let (tr3, sp7) := pyRandom sp6
          let ex := startX + amplitude * ops.sinPi (((j : ℚ) + 1) * freq / (nseg : ℚ)) (tr3 * chaos)
          (segs ++ [(pyRound1 cx1, pyRound1 cy1, pyRound1 cx2, pyRound1 cy2, pyRound1 ex, pyRound1 ey)], sp7)
        else
          (segs ++ [(pyRound1 cx1, pyRound1 cy1, pyRound1 cx2, pyRound1 cy2, pyRound1 startX, pyRound1 ey)], sp6)
      let (segs, st5) := (List.range nseg).foldl (fun a j => segStep j a) ([], st4)
      (nodes ++ [SvgNode.sh (.wavyPath startX yq segs fg strokeW op)], st5)
  (List.range nl.toNat).foldl (fun acc i => lineStep i acc) ([bgRect], s3)

/-- Dispatch over `style_function_map` of the SVG backend. -/
def svgDrawStyle (ops : FloatOps) (sty : Style) (x y sq : Int) (fg bg : String)
    (chaos : ℚ) (st : RandState) : List SvgNode × RandState :=
  match sty with
  | .circle => draw_circle x y sq fg bg chaos st
  | .opposite_circles => draw_opposite_circles x y sq fg bg chaos st
  | .cross => draw_cross ops x y sq fg bg chaos st
  | .half_square => draw_half_square x y sq fg bg chaos st
  | .diagonal_square => draw_diagonal_square x y sq fg bg chaos st
  | .quarter_circle => draw_quarter_circle x y sq fg bg chaos st
  | .dots => draw_dots x y sq fg bg chaos st
  | .letter_block => draw_letter_block x y sq fg bg chaos st
  | .concentric_circles => draw_concentric_circles x y sq fg bg chaos st
  | .stripes => draw_stripes x y sq fg bg chaos st
  | .rotated_shape => draw_rotated_shape x y sq fg bg chaos st
  | .wavy_lines => draw_wavy_lines ops x y sq fg bg chaos st

/-- A Python value passed as the `seed` parameter of the SVG backend. -/
inductive PySeed where
  | noneSeed
  | intSeed (i : Int)
  | strSeed (s : String)
deriving Repr

/-- Python `s.isdigit()` restricted to ASCII digits. -/
def pyIsDigitStr (s : String) : Bool :=
  !s.toList.isEmpty && s.toList.all (fun c => '0' ≤ c && c ≤ '9')

/-- Python `int(s)` for a digit string. -/
def pyStrToNat (s : String) : Nat :=
  s.toList.foldl (fun acc c => acc * 10 + (c.toNat - '0'.toNat)) 0

/-- The seed handling of `generate_art_svg_string` (lines 401-410): a digit
string or *any* int (negative included) seeds deterministically; everything
else re-seeds from fresh entropy. -/
def svgSeedInit (seed : PySeed) (mt : Int → Nat → Nat) (entropy : RandState) : RandState :=
  match seed with
  | .strSeed s => if pyIsDigitStr s then ⟨mt (pyStrToNat s : Nat), 0⟩ else entropy
  | .intSeed i => ⟨mt i, 0⟩
  | .noneSeed => entropy

/-- Python list indexing `l[i]`: negative indices count from the end, any
other out-of-range index raises `IndexError` (modelled by `none`). -/
def pyIndex {α : Type} (l : List α) (i : Int) : Option α :=
  let j := if i < 0 then (l.length : Int) + i else i
  if 0 ≤ j ∧ j < (l.length : Int) then l.get? j.toNat else none

/-- The per-generation context shared by every cell of the SVG backend. -/
structure SvgCtx where
  ops : FloatOps
  palette : List String
  chaos : ℚ
  activeStyles : List Style
  square_size : Nat

/-- One iteration of the SVG cell loop (lines 451-457): a color pair, a
uniform style choice, then the chosen generator inside a fresh
`cell_{c_idx}_{r_idx}` group. -/
def svgCellStep (ctx : SvgCtx) (r c : Nat)
    (acc : List (Nat × Nat × List SvgNode) × RandState) :
    List (Nat × Nat × List SvgNode) × RandState :=
  let (cells, st) := acc
  let ((fg, bg), st1) := get_two_colors ctx.palette st
  let (sty, st2) := pyChoice ctx.activeStyles Style.circle st1
  let (nodes, st3) := svgDrawStyle ctx.ops sty ((c : Int) * (ctx.square_size : Int))
    ((r : Int) * (ctx.square_size : Int)) (ctx.square_size : Int) fg bg ctx.chaos st2
  (cells ++ [(c, r, nodes)], st3)

/-- The nested `for r_idx ... for c_idx ...` cell loop of the SVG backend,
rows outer and columns inner. -/
def svgCellsNested (ctx : SvgCtx) (rows cols : Nat)
    (start : List (Nat × Nat × List SvgNode) × RandState) :
    List (Nat × Nat × List SvgNode) × RandState :=
  (List.range rows).foldl
    (fun acc r => (List.range cols).foldl (fun acc2 c => svgCellStep ctx r c acc2) acc)
    start

/-- The structured content of the svgwrite document produced by
`generate_art_svg_string`, from which `dwg.tostring()` serializes.  The
fixed style rule, the gradient stop structure, and the full-canvas
gradient-filled rectangle are determined by the fields below. -/
structure SvgDoc where
  gradient_id : Int
  bg_inner : String
  bg_outer : String
  svg_width : Nat
  svg_height : Nat
  cells : List (Nat × Nat × List SvgNode)
  big_block : Option (List SvgNode)
deriving DecidableEq, Repr

/-- `generate_art_svg_string` from an already-initialized PRNG state
(lines 412-477).  `.error` models the uncaught `IndexError` of
`current_palette_list[params['palette_index']]`; `.ok none` models the
`return None` on an empty palette list. -/
def generate_art_svg_string_from (ops : FloatOps) (rows cols square_size : Nat)
    (current_palette_list : List (List String)) (palette_index : Int)
    (block_styles : List String) (big_block_enabled : Bool) (big_block_size : Nat)
    (chaos : ℚ) (st0 : RandState) :
    Except Unit (Option (SvgDoc × List String × RandState)) :=
  if current_palette_list.isEmpty then .ok Option.none
  else
    match pyIndex current_palette_list palette_index with
    | Option.none => .error ()
    | some selected =>
      let bgc := create_background_colors selected
      let (gid, st1) := pyRandint 1000 9999 st0
      let active0 := block_styles.filterMap styleOfName
      let active := if active0 = [] then allStyles else active0
      let ctx : SvgCtx := ⟨ops, selected, chaos, active, square_size⟩
      let (cells, st2) := svgCellsNested ctx rows cols ([], st1)
      let w := cols * square_size
      let h := rows * square_size
      if big_block_enabled then
        if big_block_size ≤ rows ∧ big_block_size ≤ cols then
          let (bbCol, st3) := pyRandint 0 ((cols : Int) - (big_block_size : Int)) st2
          let (bbRow, st4) := pyRandint 0 ((rows : Int) - (big_block_size : Int)) st3
          let ((fg, bg), st5) := get_two_colors selected st4
          let (sty, st6) := pyChoice active Style.circle st5
          let (nodes, st7) := svgDrawStyle ops sty (bbCol * (square_size : Int))
            (bbRow * (square_size : Int)) ((big_block_size : Int) * (square_size : Int))
            fg bg chaos st6
          .ok (some (⟨gid, bgc.1, bgc.2, w, h, cells, some nodes⟩, [], st7))
        else
          .ok (some (⟨gid, bgc.1, bgc.2, w, h, cells, Option.none⟩,
            [bigBlockSkipMsg rows cols big_block_size], st2))
      else
        .ok (some (⟨gid, bgc.1, bgc.2, w, h, cells, Option.none⟩, [], st2))

/-- `generate_art_svg_string` (lines 399-477): seed the stream per
`svgSeedInit`, then run the pipeline. -/
def generate_art_svg_string (ops : FloatOps) (mt : Int → Nat → Nat)
    (rows cols square_size : Nat) (current_palette_list : List (List String))
    (palette_index : Int) (block_styles : List String) (big_block_enabled : Bool)
    (big_block_size : Nat) (chaos : ℚ) (seed : PySeed) (entropy : RandState) :
    Except Unit (Option (SvgDoc × List String × RandState)) :=
  generate_art_svg_string_from ops rows cols square_size current_palette_list
    palette_index block_styles big_block_enabled big_block_size chaos
    (svgSeedInit seed mt entropy)

/-- Row-major cell enumeration: all `(row, col)` pairs, rows outer. -/
def rowMajor (rows cols : Nat) : List (Nat × Nat) :=
  (List.range rows).flatMap (fun r => (List.range cols).map (fun c => (r, c)))

/-- The branch condition under which `pil_get_two_colors` returns its fixed
fallback pair instead of drawing from the palette. -/
def pilColorsFallbackTaken (palette : List String) : Bool :=
  palette.isEmpty || (validColors palette).isEmpty

/-- The branch condition under which `pil_create_background_colors` returns
the fixed gray fallback pair. -/
def pilBackgroundFallbackTaken (palette : List String) : Bool :=
  decide (palette.length < 2) ||
    !(hexRgbCore (palette.getD 0 "")).isOk || !(hexRgbCore (palette.getD 1 "")).isOk

/-- Entry shape required by claim C10: a `'#'`-prefixed string of exactly
six hexadecimal digits. -/
def isHex6 (c : String) : Bool :=
  match c.toList with
  | '#' :: rest => rest.length == 6 && rest.all (fun ch => (hexDigitVal ch).isSome)
  | _ => false

/-- Concrete float-operation oracle used by witnesses and counterexamples. -/
def opsZero : FloatOps := ⟨fun _ _ => 0, fun _ => 0⟩

/-- Concrete Mersenne-Twister stand-in used by witnesses and counterexamples. -/
def mtZero : Int → Nat → Nat := fun _ _ => 0

/-- A concrete fresh-entropy state. -/
def entropyA : RandState := ⟨fun _ => 1, 3⟩

/-- A second, different concrete fresh-entropy state. -/
def entropyB : RandState := ⟨fun _ => 2, 7⟩

/-- The all-zeros PRNG state used to evaluate functions at concrete inputs. -/
def oracle0 : RandState := ⟨fun _ => 0, 0⟩

deriving instance DecidableEq for Except

/-! ### Helper lemmas -/

theorem pyRandom_nonneg (s : RandState) : 0 ≤ (pyRandom s).1 := by
  unfold pyRandom RandState.next
  positivity

theorem pyRandom_lt_one (s : RandState) : (pyRandom s).1 < 1 := by
  unfold pyRandom RandState.next
  simp only
  rw [div_lt_one (by norm_num)]
  exact_mod_cast Nat.mod_lt _ (by norm_num)

theorem pyUniform_bounds (a b : ℚ) (s : RandState) (h : a ≤ b) :
    a ≤ (pyUniform a b s).1 ∧ (pyUniform a b s).1 ≤ b := by
  have hval : (pyUniform a b s).1 = a + (b - a) * (pyRandom s).1 := rfl
  have h0 := pyRandom_nonneg s
  have h1 := pyRandom_lt_one s
  rw [hval]
  constructor
  · nlinarith
  · nlinarith

theorem pyChoice_mem {α : Type} (l : List α) (d : α) (s : RandState) (h : l ≠ []) :
    (pyChoice l d s).1 ∈ l := by
  unfold pyChoice RandState.next
  simp only
  have hlen : 0 < l.length := List.length_pos.mpr h
  have hlt : (s.oracle s.pos) % l.length < l.length := Nat.mod_lt _ hlen
  rw [List.getD_eq_getElem l d hlt]
  exact List.getElem_mem hlt

theorem pyRandint_bounds (a b : Int) (s : RandState) (h : a ≤ b) :
    a ≤ (pyRandint a b s).1 ∧ (pyRandint a b s).1 ≤ b := by
  unfold pyRandint RandState.next
  simp only
  have hpos : 0 < b - a + 1 := by omega
  have h1 : 0 ≤ ((s.oracle s.pos : Int)) % (b - a + 1) :=
    Int.emod_nonneg _ (by omega)
  have h2 : ((s.oracle s.pos : Int)) % (b - a + 1) < b - a + 1 :=
    Int.emod_lt_of_pos _ hpos
  omega

theorem foldlM_flatMap_pairs {m : Type → Type} [Monad m] [LawfulMonad m]
    {α γ β : Type} (l1 : List α) (l2 : List γ) (step : β → α × γ → m β) (b : β) :
    (l1.flatMap (fun r => l2.map (fun c => (r, c)))).foldlM step b =
      l1.foldlM (fun acc r => l2.foldlM (fun a c => step a (r, c)) acc) b := by
  induction l1 generalizing b with
  | nil => rfl
  | cons r tl ih =>
    rw [List.flatMap_cons, List.foldlM_append, List.foldlM_cons, List.foldlM_map]
    exact bind_congr fun b' => ih b'

theorem foldl_flatMap_pairs {α γ β : Type}
    (l1 : List α) (l2 : List γ) (step : β → α × γ → β) (b : β) :
    (l1.flatMap (fun r => l2.map (fun c => (r, c)))).foldl step b =
      l1.foldl (fun acc r => l2.foldl (fun a c => step a (r, c)) acc) b := by
  induction l1 generalizing b with
  | nil => rfl
  | cons r tl ih =>
    rw [List.flatMap_cons, List.foldl_append, List.foldl_cons, List.foldl_map]
    exact ih _

theorem pilBigBlocks_unfit (ctx : PilCtx) (rows cols mult count : Nat)
    (h : rows < mult ∨ cols < mult) (cmds : List Cmd) (diags : List String) (st : RandState) :
    pilBigBlocks ctx rows cols mult count (cmds, diags, st) =
      .ok (cmds, diags ++ List.replicate count (bigBlockSkipMsg rows cols mult), st) := by
  have hc : ¬(mult ≤ rows ∧ mult ≤ cols) := by omega
  induction count with
  | zero => simp [pilBigBlocks, pure, Except.pure]
  | succ n ih =>
    unfold pilBigBlocks at ih ⊢
    rw [List.range_succ, List.foldlM_append, ih]
    simp only [List.foldlM_cons, List.foldlM_nil, pilBigBlockStep, if_neg hc]
    rw [List.replicate_succ']
    simp [List.append_assoc]

theorem default_palettes_pil_length : DEFAULT_PALETTES_DATA_PIL.length = 68 := rfl

/-! ### Claim theorems -/

/-- C1: for a fixed non-negative seed and fixed parameters, two independent
calls of the same generation function produce identical artifacts: the
result (command trace / document tree, diagnostics, final PRNG state) does
not depend on the ambient entropy state, because seeding resets the whole
stream to a state determined by the seed alone. -/
theorem generation_deterministic_fixed_seed (ops : FloatOps) (mt : Int → Nat → Nat)
    (rows cols sq : Nat) (pi : Int) (styles : String) (bbE : Bool) (bbM bbC : Nat)
    (chaos : ℚ) (plist : List (List String)) (pidx : Int) (bstyles : List String)
    (bbE' : Bool) (bbM' : Nat) (s : Int) (e1 e2 : RandState) (hs : 0 ≤ s) :
    generate_art_image_pil ops mt rows cols sq pi styles bbE bbM bbC chaos (some s) e1 =
      generate_art_image_pil ops mt rows cols sq pi styles bbE bbM bbC chaos (some s) e2 ∧
    generate_art_svg_string ops mt rows cols sq plist pidx bstyles bbE' bbM' chaos
        (PySeed.intSeed s) e1 =
      generate_art_svg_string ops mt rows cols sq plist pidx bstyles bbE' bbM' chaos
        (PySeed.intSeed s) e2 := by
  constructor
  · unfold generate_art_image_pil
    have hseed : pilSeedInit (some s) mt e1 = pilSeedInit (some s) mt e2 := by
      simp [pilSeedInit, not_lt.mpr hs]
    rw [hseed]
  · unfold generate_art_svg_string
    rfl

theorem generation_deterministic_fixed_seed_witness :
    (0 : Int) ≤ 42 ∧
    (generate_art_image_pil opsZero mtZero 2 2 10 0 "" true 2 1 0 (some 42) entropyA =
        generate_art_image_pil opsZero mtZero 2 2 10 0 "" true 2 1 0 (some 42) entropyB ∧
      generate_art_svg_string opsZero mtZero 2 2 10 DEFAULT_PALETTES_DATA_SVG 0 [] true 2 0
          (PySeed.intSeed 42) entropyA =
        generate_art_svg_string opsZero mtZero 2 2 10 DEFAULT_PALETTES_DATA_SVG 0 [] true 2 0
          (PySeed.intSeed 42) entropyB) :=
  ⟨by norm_num,
   generation_deterministic_fixed_seed opsZero mtZero 2 2 10 0 "" true 2 1 0
     DEFAULT_PALETTES_DATA_SVG 0 [] true 2 42 entropyA entropyB (by norm_num)⟩

/-- C2: in both backends the cell loops visit cells in row-major order
(rows outer, columns inner): the nested loops equal one fold over the
row-major enumeration; and within each cell the PRNG stream is consumed in
the order color-pair draw, then style-choice draw, then the draws internal
to the chosen style generator, the state being threaded through exactly in
that order. -/
theorem cells_row_major_order (ctxP : PilCtx) (ctxS : SvgCtx) (rows cols : Nat)
    (startP : List Cmd × RandState)
    (startS : List (Nat × Nat × List SvgNode) × RandState) :
    pilCellsNested ctxP rows cols startP =
      (rowMajor rows cols).foldlM (fun acc rc => pilCellStep ctxP rc.1 rc.2 acc) startP ∧
    svgCellsNested ctxS rows cols startS =
      (rowMajor rows cols).foldl (fun acc rc => svgCellStep ctxS rc.1 rc.2 acc) startS ∧
    (∀ (r c : Nat) (cmds : List Cmd) (st : RandState),
      pilCellStep ctxP r c (cmds, st) = do
        let ((fg, bg), st1) ← pil_get_two_colors ctxP.palette ctxP.chaos st
        let (sty, st2) := pyChoice ctxP.activeStyles Style.circle st1
        let (cellCmds, st3) := pilDrawStyle ctxP.ops sty ((c : Int) * (ctxP.square_size : Int))
          ((r : Int) * (ctxP.square_size : Int)) (ctxP.square_size : Int) fg bg ctxP.chaos st2
        pure (cmds ++ cellCmds, st3)) ∧
    (∀ (r c : Nat) (cells : List (Nat × Nat × List SvgNode)) (st : RandState),
      svgCellStep ctxS r c (cells, st) =
        (let ((fg, bg), st1) := get_two_colors ctxS.palette st
         let (sty, st2) := pyChoice ctxS.activeStyles Style.circle st1
         let (nodes, st3) := svgDrawStyle ctxS.ops sty ((c : Int) * (ctxS.square_size : Int))
           ((r : Int) * (ctxS.square_size : Int)) (ctxS.square_size : Int) fg bg ctxS.chaos st2
         (cells ++ [(c, r, nodes)], st3))) := by
  refine ⟨?_, ?_, fun r c cmds st => rfl, fun r c cells st => rfl⟩
  · unfold pilCellsNested rowMajor
    exact (foldlM_flatMap_pairs (m := Except Unit) (List.range rows) (List.range cols)
      (fun acc rc => pilCellStep ctxP rc.1 rc.2 acc) startP).symm
  · unfold svgCellsNested rowMajor
    exact (foldl_flatMap_pairs (List.range rows) (List.range cols)
      (fun acc rc => svgCellStep ctxS rc.1 rc.2 acc) startS).symm

/-- C8 (amended): the raster backend re-seeds from fresh entropy for an
absent or negative seed and deterministically otherwise; the SVG backend
seeds deterministically for *any* integer (negative included) and for digit
strings, and uses fresh entropy only for `None` and non-digit strings. -/
theorem seed_handling_amended (mt : Int → Nat → Nat) (e : RandState) (s : Int)
    (str : String) :
    pilSeedInit Option.none mt e = e ∧
    (s < 0 → pilSeedInit (some s) mt e = e) ∧
    (0 ≤ s → pilSeedInit (some s) mt e = ⟨mt s, 0⟩) ∧
    svgSeedInit (PySeed.intSeed s) mt e = ⟨mt s, 0⟩ ∧
    (pyIsDigitStr str = true → svgSeedInit (PySeed.strSeed str) mt e = ⟨mt (pyStrToNat str), 0⟩) ∧
    (pyIsDigitStr str = false → svgSeedInit (PySeed.strSeed str) mt e = e) ∧
    svgSeedInit PySeed.noneSeed mt e = e := by
  refine ⟨rfl, fun h => ?_, fun h => ?_, rfl, fun h => ?_, fun h => ?_, rfl⟩
  · simp [pilSeedInit, h]
  · simp [pilSeedInit, not_lt.mpr h]
  · simp [svgSeedInit, h]
  · simp [svgSeedInit, h]

theorem seed_handling_amended_witness :
    pilSeedInit (some (-3)) mtZero entropyA = entropyA ∧
    pilSeedInit (some 7) mtZero entropyA = ⟨mtZero 7, 0⟩ ∧
    svgSeedInit (PySeed.strSeed "12") mtZero entropyA = ⟨mtZero (pyStrToNat "12"), 0⟩ ∧
    svgSeedInit (PySeed.strSeed "x2") mtZero entropyA = entropyA :=
  ⟨(seed_handling_amended mtZero entropyA (-3) "12").2.1 (by norm_num),
   (seed_handling_amended mtZero entropyA 7 "12").2.2.1 (by norm_num),
   (seed_handling_amended mtZero entropyA 7 "12").2.2.2.2.1 (by decide),
   (seed_handling_amended mtZero entropyA 7 "x2").2.2.2.2.2.1 (by decide)⟩

/-- C8 counterexample: the SVG backend seeds *deterministically* for the
negative integer seed `-5` — the resulting state ignores the entropy source
(two different entropy states give the same result, and the result is not
the entropy state), contradicting the claim that a negative seed leads to a
non-reproducible initialization. -/
theorem svg_negative_seed_counterexample :
    svgSeedInit (PySeed.intSeed (-5)) mtZero entropyA =
      svgSeedInit (PySeed.intSeed (-5)) mtZero entropyB ∧
    svgSeedInit (PySeed.intSeed (-5)) mtZero entropyA ≠ entropyA ∧
    generate_art_svg_string opsZero mtZero 1 1 10 DEFAULT_PALETTES_DATA_SVG 0 [] false 2 0
        (PySeed.intSeed (-5)) entropyA =
      generate_art_svg_string opsZero mtZero 1 1 10 DEFAULT_PALETTES_DATA_SVG 0 [] false 2 0
        (PySeed.intSeed (-5)) entropyB := by
  refine ⟨rfl, fun h => ?_, ?_⟩
  · have := congrArg RandState.pos h
    simp [svgSeedInit, entropyA] at this
  · unfold generate_art_svg_string
    rfl

/-- C4 (amended): the raster backend clamps any out-of-range palette index
to 0 and its palette selection always stays in range; the SVG backend does
not clamp — Python indexing sends `len(palettes)` to an `IndexError` and
`-1` to the *last* palette. -/
theorem palette_clamp_amended (i : Int) (l : List (List String)) :
    pilResolvePaletteIndex i < DEFAULT_PALETTES_DATA_PIL.length ∧
    (¬(0 ≤ i ∧ i < (DEFAULT_PALETTES_DATA_PIL.length : Int)) → pilResolvePaletteIndex i = 0) ∧
    pyIndex l ((l.length : Int)) = Option.none ∧
    (l ≠ [] → pyIndex l (-1) = l.get? (l.length - 1)) := by
  refine ⟨?_, ?_, ?_, ?_⟩
  · unfold pilResolvePaletteIndex
    split
    · next hin => omega
    · next =>
      have h68 : DEFAULT_PALETTES_DATA_PIL.length = 68 := default_palettes_pil_length
      omega
  · intro hout
    simp [pilResolvePaletteIndex, hout]
  · have hj : ¬ ((l.length : Int) < 0) := by omega
    simp only [pyIndex, if_neg hj]
    have hcond : ¬ (0 ≤ (l.length : Int) ∧ (l.length : Int) < (l.length : Int)) := by omega
    simp [hcond]
  · intro h
    have hlen : 0 < l.length := List.length_pos.mpr h
    have hneg : ((-1 : Int) < 0) := by norm_num
    simp only [pyIndex, if_pos hneg]
    have hcond : 0 ≤ (l.length : Int) + (-1) ∧ (l.length : Int) + (-1) < (l.length : Int) := by
      omega
    simp only [if_pos hcond]
    congr 1
    omega

theorem palette_clamp_amended_witness :
    pyIndex ([["#FF6B6B"]] : List (List String)) (-1) =
      ([["#FF6B6B"]] : List (List String)).get? 0 := by
  have := (palette_clamp_amended (-1) [["#FF6B6B"]]).2.2.2 (by decide)
  simpa using this

/-- C4 counterexample: calling the SVG generator on the default 4-palette
store with `palette_index = len(palettes) = 4` raises `IndexError` instead
of resolving to palette 0, and index `-1` resolves to the *last* palette,
which differs from palette 0. -/
theorem svg_palette_index_counterexample :
    generate_art_svg_string opsZero mtZero 1 1 10 DEFAULT_PALETTES_DATA_SVG 4 [] false 2 0
        (PySeed.intSeed 0) oracle0 = .error () ∧
    pyIndex DEFAULT_PALETTES_DATA_SVG (-1) =
      some ["#003049", "#D62828", "#F77F00", "#FCBF49", "#EAE2B7"] ∧
    some (["#003049", "#D62828", "#F77F00", "#FCBF49", "#EAE2B7"] : List String) ≠
      pyIndex DEFAULT_PALETTES_DATA_SVG 0 := by
  refine ⟨rfl, by decide, by decide⟩

/-- C7: when big blocks are enabled but the grid is smaller than the
multiplier in either dimension, every big block is skipped with a
diagnostic and without consuming any PRNG draw, so both backends produce
exactly the artifact of a `big_block_enabled = false` run (same trace, same
final PRNG state, and a failure exactly when the base run fails); when the
block does fit, both `randint` offsets keep the `mult × mult` block
entirely inside the grid. -/
theorem big_block_skip_and_fit (ops : FloatOps) (rows cols sq mult count : Nat)
    (pi pidx : Int) (styles : String) (plist : List (List String))
    (bstyles : List String) (chaos : ℚ) (st : RandState) :
    ((rows < mult ∨ cols < mult) →
      generate_art_image_pil_from ops rows cols sq pi styles true mult count chaos st =
        (generate_art_image_pil_from ops rows cols sq pi styles false mult count chaos st).map
          (fun r => (r.1, r.2.1 ++ List.replicate count (bigBlockSkipMsg rows cols mult), r.2.2)) ∧
      generate_art_svg_string_from ops rows cols sq plist pidx bstyles true mult chaos st =
        (generate_art_svg_string_from ops rows cols sq plist pidx bstyles false mult chaos st).map
          (Option.map (fun r => (r.1, r.2.1 ++ [bigBlockSkipMsg rows cols mult], r.2.2)))) ∧
    (∀ (n : Nat) (st' : RandState), mult ≤ n →
      0 ≤ (pyRandint 0 ((n : Int) - (mult : Int)) st').1 ∧
      (pyRandint 0 ((n : Int) - (mult : Int)) st').1 + (mult : Int) ≤ (n : Int)) := by
  constructor
  · intro h
    have hcond : ¬(mult ≤ rows ∧ mult ≤ cols) := by omega
    constructor
    · unfold generate_art_image_pil_from
      simp only [eq_self_iff_true, if_true, Bool.false_eq_true, if_false]
      split
      · rfl
      · rw [pilBigBlocks_unfit _ _ _ _ _ h]
        simp [Except.map]
    · unfold generate_art_svg_string_from
      simp only [eq_self_iff_true, if_true, Bool.false_eq_true, if_false]
      split
      · rfl
      · split
        · rfl
        · simp [if_neg hcond, Except.map]
  · intro n st' hn
    have hb : (0 : Int) ≤ (n : Int) - (mult : Int) := by omega
    have := pyRandint_bounds 0 ((n : Int) - (mult : Int)) st' hb
    omega

theorem big_block_skip_and_fit_witness :
    ((2 < 3 ∨ 2 < 3) →
      generate_art_image_pil_from opsZero 2 2 10 0 "" true 3 1 0 oracle0 =
        (generate_art_image_pil_from opsZero 2 2 10 0 "" false 3 1 0 oracle0).map
          (fun r => (r.1, r.2.1 ++ List.replicate 1 (bigBlockSkipMsg 2 2 3), r.2.2)) ∧
      generate_art_svg_string_from opsZero 2 2 10 DEFAULT_PALETTES_DATA_SVG 0 [] true 3 0 oracle0 =
        (generate_art_svg_string_from opsZero 2 2 10 DEFAULT_PALETTES_DATA_SVG 0 [] false 3 0
            oracle0).map
          (Option.map (fun r => (r.1, r.2.1 ++ [bigBlockSkipMsg 2 2 3], r.2.2)))) ∧
    (2 < 3 ∨ 2 < 3) ∧
    (3 ≤ 4 → 0 ≤ (pyRandint 0 ((4 : Int) - (3 : Int)) oracle0).1 ∧
      (pyRandint 0 ((4 : Int) - (3 : Int)) oracle0).1 + (3 : Int) ≤ (4 : Int)) :=
  ⟨(big_block_skip_and_fit opsZero 2 2 10 3 1 0 0 "" DEFAULT_PALETTES_DATA_SVG [] 0 oracle0).1,
   Or.inl (by norm_num),
   fun h => (big_block_skip_and_fit opsZero 2 2 10 3 1 0 0 "" DEFAULT_PALETTES_DATA_SVG [] 0
     oracle0).2 4 oracle0 h⟩

theorem isEmpty_false_of_ne_nil {α : Type} {l : List α} (h : l ≠ []) : l.isEmpty = false := by
  cases l with
  | nil => exact absurd rfl h
  | cons x xs => rfl

/-- C3 (amended): whenever the palette's valid entries contain at least two
*distinct strings*, both backends pick a foreground entry different from the
background entry; under the additional hypotheses that every valid entry
parses and that no two distinct valid entries denote the same RGB triple,
the raster pair also differs in RGB.  (The original claim fails for
palettes whose valid entries repeat, or alias the same RGB.) -/
theorem color_pair_distinct_amended (palette : List String) (chaos : ℚ)
    (st st' : RandState) (a b : String)
    (ha : a ∈ validColors palette) (hb : b ∈ validColors palette) (hab : a ≠ b)
    (hparse : ∀ c ∈ validColors palette, (hexRgbCore c).isOk = true)
    (hinj : ∀ c ∈ validColors palette, ∀ d ∈ validColors palette,
      hexRgbCore c = hexRgbCore d → c = d) :
    (get_two_colors palette st).1.1 ≠ (get_two_colors palette st).1.2 ∧
    (∃ fg bg st2, pil_get_two_colors palette chaos st' = .ok ((fg, bg), st2) ∧
      (fg.r, fg.g, fg.b) ≠ (bg.r, bg.g, bg.b)) := by
  classical
  have hane : validColors palette ≠ [] := List.ne_nil_of_mem ha
  have hpalne : palette ≠ [] := by
    intro h0
    rw [h0] at ha
    simp [validColors] at ha
  have hpal : palette.isEmpty = false := isEmpty_false_of_ne_nil hpalne
  have hvE : (validColors palette).isEmpty = false := isEmpty_false_of_ne_nil hane
  have hlen : (validColors palette).length ≠ 1 := by
    intro h1
    obtain ⟨x, hx⟩ := List.length_eq_one.mp h1
    rw [hx] at ha hb
    simp only [List.mem_singleton] at ha hb
    exact hab (ha.trans hb.symm)
  have hwitness : ∀ bgx : String, ∃ w ∈ validColors palette, w ≠ bgx := by
    intro bgx
    by_cases haw : a = bgx
    · exact ⟨b, hb, fun hbw => hab (haw.trans hbw.symm)⟩
    · exact ⟨a, ha, haw⟩
  constructor
  · -- SVG backend
    unfold get_two_colors
    rw [hpal]
    simp only [Bool.false_eq_true, if_false]
    rw [hvE]
    simp only [Bool.false_eq_true, if_false, if_neg hlen]
    rcases hch : pyChoice (validColors palette) "" st with ⟨bgHex, st1⟩
    have hbgmem : bgHex ∈ validColors palette := by
      have := pyChoice_mem (validColors palette) "" st hane
      rw [hch] at this
      exact this
    obtain ⟨w, hwmem, hwne⟩ := hwitness bgHex
    have hremne : (validColors palette).filter (fun c => c ≠ bgHex) ≠ [] :=
      List.ne_nil_of_mem (List.mem_filter.mpr ⟨hwmem, by simp [hwne]⟩)
    have hremE := isEmpty_false_of_ne_nil hremne
    rw [hremE]
    simp only [Bool.false_eq_true, if_false]
    rcases hch2 : pyChoice ((validColors palette).filter (fun c => c ≠ bgHex)) "" st1 with
      ⟨fgHex, st2⟩
    have hfgmem : fgHex ∈ (validColors palette).filter (fun c => c ≠ bgHex) := by
      have := pyChoice_mem ((validColors palette).filter (fun c => c ≠ bgHex)) "" st1 hremne
      rw [hch2] at this
      exact this
    have hfgne : fgHex ≠ bgHex := by
      have := List.of_mem_filter hfgmem
      simpa using this
    simpa using hfgne
  · -- raster backend
    rcases hga : get_random_alpha chaos st' with ⟨alpha, st1⟩
    unfold pil_get_two_colors
    rw [hga]
    simp only
    rw [hpal]
    simp only [Bool.false_eq_true, if_false]
    rw [hvE]
    simp only [Bool.false_eq_true, if_false]
    rcases hch : pyChoice (validColors palette) "" st1 with ⟨bgHex, st2⟩
    have hbgmem : bgHex ∈ validColors palette := by
      have := pyChoice_mem (validColors palette) "" st1 hane
      rw [hch] at this
      exact this
    have hbgok := hparse bgHex hbgmem
    rcases hcoreBg : hexRgbCore bgHex with eBg | vBg
    · rw [hcoreBg] at hbgok
      simp [Except.isOk, Except.toBool] at hbgok
    · have hbgparse : hex_to_rgba bgHex 255 = .ok ⟨vBg.1, vBg.2.1, vBg.2.2, 255⟩ := by
        unfold hex_to_rgba
        rw [hcoreBg]
        rfl
      rw [hbgparse]
      obtain ⟨w, hwmem, hwne⟩ := hwitness bgHex
      have hremne : (validColors palette).filter (fun c => c ≠ bgHex) ≠ [] :=
        List.ne_nil_of_mem (List.mem_filter.mpr ⟨hwmem, by simp [hwne]⟩)
      have hremE := isEmpty_false_of_ne_nil hremne
      rw [hremE]
      simp only [Bool.false_eq_true, if_false]
      rcases hch2 : pyChoice ((validColors palette).filter (fun c => c ≠ bgHex)) "" st2 with
        ⟨fgHex, st3⟩
      have hfgmemFilter : fgHex ∈ (validColors palette).filter (fun c => c ≠ bgHex) := by
        have := pyChoice_mem ((validColors palette).filter (fun c => c ≠ bgHex)) "" st2 hremne
        rw [hch2] at this
        exact this
      have hfgmem : fgHex ∈ validColors palette := List.mem_of_mem_filter hfgmemFilter
      have hfgne : fgHex ≠ bgHex := by
        have := List.of_mem_filter hfgmemFilter
        simpa using this
      have hfgok := hparse fgHex hfgmem
      rcases hcoreFg : hexRgbCore fgHex with eFg | vFg
      · rw [hcoreFg] at hfgok
        simp [Except.isOk, Except.toBool] at hfgok
      · have hfgparse : hex_to_rgba fgHex alpha = .ok ⟨vFg.1, vFg.2.1, vFg.2.2, alpha⟩ := by
          unfold hex_to_rgba
          rw [hcoreFg]
          rfl
        rw [hfgparse]
        refine ⟨⟨vFg.1, vFg.2.1, vFg.2.2, alpha⟩, ⟨vBg.1, vBg.2.1, vBg.2.2, 255⟩, st3, rfl, ?_⟩
        intro hrgb
        simp only [Prod.mk.injEq] at hrgb
        have hv : vFg = vBg := by
          obtain ⟨x1, y1, z1⟩ := vFg
          obtain ⟨x2, y2, z2⟩ := vBg
          simp only at hrgb
          simp [hrgb.1, hrgb.2.1, hrgb.2.2]
        have : fgHex = bgHex := hinj fgHex hfgmem bgHex hbgmem (by rw [hcoreFg, hcoreBg, hv])
        exact hfgne this

theorem color_pair_distinct_amended_witness :
    (("#FF6B6B" : String) ∈ validColors ["#FF6B6B", "#FFD166"] ∧
      ("#FFD166" : String) ∈ validColors ["#FF6B6B", "#FFD166"] ∧
      ("#FF6B6B" : String) ≠ "#FFD166") ∧
    ((get_two_colors ["#FF6B6B", "#FFD166"] oracle0).1.1 ≠
        (get_two_colors ["#FF6B6B", "#FFD166"] oracle0).1.2 ∧
      ∃ fg bg st2, pil_get_two_colors ["#FF6B6B", "#FFD166"] 0 entropyA =
          .ok ((fg, bg), st2) ∧ (fg.r, fg.g, fg.b) ≠ (bg.r, bg.g, bg.b)) :=
  ⟨⟨by decide, by decide, by decide⟩,
   color_pair_distinct_amended ["#FF6B6B", "#FFD166"] 0 oracle0 entropyA
     "#FF6B6B" "#FFD166" (by decide) (by decide) (by decide) (by decide) (by decide)⟩

/-- C3 counterexample: the palette `["#ABC", "#ABC"]` has two valid hex
colors, yet both backends return a foreground equal to the background (same
string, hence same RGB); moreover, with exactly one valid color the SVG
backend does not repeat that color: it returns the fixed `"#CCCCCC"`
background instead. -/
theorem color_pair_duplicate_counterexample :
    validColors ["#ABC", "#ABC"] = ["#ABC", "#ABC"] ∧
    (get_two_colors ["#ABC", "#ABC"] oracle0).1.1 =
      (get_two_colors ["#ABC", "#ABC"] oracle0).1.2 ∧
    pil_get_two_colors ["#ABC", "#ABC"] 0 oracle0 =
      .ok ((⟨170, 187, 204, 255⟩, ⟨170, 187, 204, 255⟩), ⟨oracle0.oracle, 2⟩) ∧
    get_two_colors ["#ABC"] oracle0 = (("#ABC", "#CCCCCC"), oracle0) := by
  refine ⟨by decide, by decide, ?_, rfl⟩
  have h1 : get_random_alpha 0 oracle0 = (255, ⟨oracle0.oracle, 1⟩) := by
    norm_num [get_random_alpha, pyRandom, RandState.next, oracle0]
  unfold pil_get_two_colors
  rw [h1]
  rfl

/-- C5 (amended): background derivation uses the first two palette
*entries*, not the first two valid colors: with fewer than two entries both
backends return the fixed gray fallback; the SVG backend also falls back
whenever either of the first two entries fails its format test, and the
raster backend falls back whenever parsing one of the first two entries
raises.  (A wrong-length entry in the raster backend does not raise — it is
silently read as black — so a palette with exactly one valid color need not
produce the fallback; see the counterexample.) -/
theorem background_derivation_amended (palette : List String) (c1 c2 : String)
    (rest : List String) :
    (palette.length < 2 →
      pil_create_background_colors palette = pilGrayFallback ∧
      create_background_colors palette = ("#EEEEEE", "#DDDDDD")) ∧
    (palette = c1 :: c2 :: rest → svgBgFormatOk c1 = false →
      create_background_colors palette = ("#EEEEEE", "#DDDDDD")) ∧
    (palette = c1 :: c2 :: rest → hexRgbCore c1 = .error () →
      pil_create_background_colors palette = pilGrayFallback) := by
  refine ⟨fun h => ⟨?_, ?_⟩, fun hp hok => ?_, fun hp herr => ?_⟩
  · simp [pil_create_background_colors, h]
  · simp [create_background_colors, h]
  · subst hp
    unfold create_background_colors
    have hlen : ¬((c1 :: c2 :: rest).length < 2) := by simp
    rw [if_neg hlen]
    simp [hok]
  · subst hp
    unfold pil_create_background_colors
    have hlen : ¬((c1 :: c2 :: rest).length < 2) := by simp
    rw [if_neg hlen]
    simp only [List.getD_cons_zero, List.getD_cons_succ]
    rw [herr]

theorem background_derivation_amended_witness :
    pil_create_background_colors ["#AABBCC"] = pilGrayFallback ∧
    create_background_colors ["bad", "#FF0000"] = ("#EEEEEE", "#DDDDDD") ∧
    pil_create_background_colors ["#GGGGGG", "#FF0000"] = pilGrayFallback :=
  ⟨((background_derivation_amended ["#AABBCC"] "" "" []).1 (by decide)).1,
   (background_derivation_amended ["bad", "#FF0000"] "bad" "#FF0000" []).2.1 rfl (by decide),
   (background_derivation_amended ["#GGGGGG", "#FF0000"] "#GGGGGG" "#FF0000" []).2.2 rfl
     (by decide)⟩

set_option maxHeartbeats 2000000

/-- C5 counterexample: the palette `["#AABBCC", "#ABCDE"]` has exactly one
valid color, yet the raster background deriver does not return the fixed
gray fallback — the wrong-length second entry is silently read as black and
mixed in, producing `(118,118,118)/(67,67,67)`. -/
theorem background_one_valid_counterexample :
    validColors ["#AABBCC", "#ABCDE"] = ["#AABBCC"] ∧
    pil_create_background_colors ["#AABBCC", "#ABCDE"] =
      (⟨118, 118, 118, 255⟩, ⟨67, 67, 67, 255⟩) ∧
    pil_create_background_colors ["#AABBCC", "#ABCDE"] ≠ pilGrayFallback := by
  have hmain : pil_create_background_colors ["#AABBCC", "#ABCDE"] =
      (⟨118, 118, 118, 255⟩, ⟨67, 67, 67, 255⟩) := by
    have hc1 : hexRgbCore "#AABBCC" = .ok (170, 187, 204) := by decide
    have hc2 : hexRgbCore "#ABCDE" = .ok (0, 0, 0) := by decide
    unfold pil_create_background_colors
    rw [if_neg (by decide : ¬((["#AABBCC", "#ABCDE"] : List String).length < 2))]
    simp only [List.getD_cons_zero, List.getD_cons_succ]
    rw [hc1, hc2]
    norm_num [rgb_to_hls, hls_to_rgb, hlsV, pyMod1, pyInt, max_def, min_def]
    decide
  exact ⟨by decide, hmain, by rw [hmain]; decide⟩

set_option maxHeartbeats 200000

/-- C6 (amended): entries failing the shape test (`'#'`-prefix and 3 or 6
chars after stripping) are dropped by the selection filter, and an empty
filter result falls back to the fixed neutral defaults in both backends
without raising.  (Entries that pass the shape test but contain non-hex
digits are *kept*, and in the raster backend parsing such an entry raises;
see the counterexample.) -/
theorem invalid_entry_filter_amended (palette : List String) (st : RandState)
    (chaos : ℚ) (c : String) :
    (∀ d ∈ validColors palette, d ∈ palette) ∧
    (c ∈ palette → validHexShape c = false → c ∉ validColors palette) ∧
    ((validColors palette).isEmpty = true → palette.isEmpty = false →
      get_two_colors palette st = (("#333333", "#CCCCCC"), st) ∧
      pil_get_two_colors palette chaos st =
        .ok ((⟨51, 51, 51, (get_random_alpha chaos st).1⟩, ⟨204, 204, 204, 255⟩),
          (get_random_alpha chaos st).2)) := by
  refine ⟨fun d hd => List.mem_of_mem_filter hd, fun hc hbad hmem => ?_, fun hve hpne => ⟨?_, ?_⟩⟩
  · have := List.of_mem_filter hmem
    rw [hbad] at this
    exact Bool.false_ne_true this
  · unfold get_two_colors
    rw [hpne]
    simp only [Bool.false_eq_true, if_false]
    rw [hve]
    simp
  · rcases hga : get_random_alpha chaos st with ⟨alpha, st1⟩
    unfold pil_get_two_colors
    rw [hga]
    simp only
    rw [hpne]
    simp only [Bool.false_eq_true, if_false]
    rw [hve]
    simp

theorem invalid_entry_filter_amended_witness :
    (∀ d ∈ validColors ["xyz"], d ∈ (["xyz"] : List String)) ∧
    ("xyz" : String) ∉ validColors ["xyz"] ∧
    (get_two_colors ["xyz"] oracle0 = (("#333333", "#CCCCCC"), oracle0) ∧
      pil_get_two_colors ["xyz"] 0 oracle0 =
        .ok ((⟨51, 51, 51, (get_random_alpha 0 oracle0).1⟩, ⟨204, 204, 204, 255⟩),
          (get_random_alpha 0 oracle0).2)) :=
  ⟨(invalid_entry_filter_amended ["xyz"] oracle0 0 "xyz").1,
   (invalid_entry_filter_amended ["xyz"] oracle0 0 "xyz").2.1 (by decide) (by decide),
   (invalid_entry_filter_amended ["xyz"] oracle0 0 "xyz").2.2 (by decide) (by decide)⟩

/-- C6 counterexample: the entry `"#GGGGGG"` passes the shape filter (it is
*not* dropped), and the raster backend then raises inside `hex_to_rgba`
(`int('GG', 16)` → `ValueError`), contradicting both the dropping and the
never-raises parts of the claim. -/
theorem invalid_entry_raise_counterexample :
    ("#GGGGGG" : String) ∈ validColors ["#GGGGGG"] ∧
    pil_get_two_colors ["#GGGGGG"] 0 oracle0 = .error () := by
  refine ⟨by decide, ?_⟩
  have h1 : get_random_alpha 0 oracle0 = (255, ⟨oracle0.oracle, 1⟩) := by
    norm_num [get_random_alpha, pyRandom, RandState.next, oracle0]
  unfold pil_get_two_colors
  rw [h1]
  rfl

/-- C9 (amended): the *raster* `opposite_circles` generator draws, after the
background rectangle and one unused radius draw, exactly two circles whose
bounding boxes are centered on the cell's quarter-points
`(x + size/4, y + size/4)` and `(x + 3·size/4, y + 3·size/4)`, sharing one
radius `size/4 · uniform(0.8, 1.2)`.  (The SVG generator instead draws two
coincident circles at the cell center with radius `size · uniform(0.4,0.6)`;
see the counterexample.) -/
theorem pil_opposite_circles_amended (x y sq : Int) (fg bg : Rgba) (chaos : ℚ)
    (st : RandState) (h : 0 ≤ sq) :
    ∃ (r : ℚ) (st' : RandState),
      draw_pil_opposite_circles x y sq fg bg chaos st =
        ([Cmd.draw (.rect (x : ℚ) (y : ℚ) ((x + sq : Int) : ℚ) ((y + sq : Int) : ℚ) bg),
          Cmd.draw (.ellipse ((x : ℚ) + (sq : ℚ) / 4 - r) ((y : ℚ) + (sq : ℚ) / 4 - r)
            ((x : ℚ) + (sq : ℚ) / 4 + r) ((y : ℚ) + (sq : ℚ) / 4 + r) fg),
          Cmd.draw (.ellipse ((x : ℚ) + 3 * ((sq : ℚ) / 4) - r)
            ((y : ℚ) + 3 * ((sq : ℚ) / 4) - r) ((x : ℚ) + 3 * ((sq : ℚ) / 4) + r)
            ((y : ℚ) + 3 * ((sq : ℚ) / 4) + r) fg)], st') ∧
      0.8 * ((sq : ℚ) / 4) ≤ r ∧ r ≤ 1.2 * ((sq : ℚ) / 4) := by
  refine ⟨((sq : ℚ) / 4) * (pyUniform 0.8 1.2 (pyUniform 0.4 0.6 st).2).1,
    (pyUniform 0.8 1.2 (pyUniform 0.4 0.6 st).2).2, rfl, ?_, ?_⟩
  · have hb := pyUniform_bounds 0.8 1.2 (pyUniform 0.4 0.6 st).2 (by norm_num)
    have hq : (0 : ℚ) ≤ (sq : ℚ) / 4 := by
      have : (0 : ℚ) ≤ (sq : ℚ) := by exact_mod_cast h
      linarith
    nlinarith [hb.1]
  · have hb := pyUniform_bounds 0.8 1.2 (pyUniform 0.4 0.6 st).2 (by norm_num)
    have hq : (0 : ℚ) ≤ (sq : ℚ) / 4 := by
      have : (0 : ℚ) ≤ (sq : ℚ) := by exact_mod_cast h
      linarith
    nlinarith [hb.2]

theorem pil_opposite_circles_amended_witness :
    ∃ (r : ℚ) (st' : RandState),
      draw_pil_opposite_circles 0 0 100 ⟨1, 2, 3, 255⟩ ⟨4, 5, 6, 255⟩ 0 oracle0 =
        ([Cmd.draw (.rect ((0 : Int) : ℚ) ((0 : Int) : ℚ) (((0 : Int) + 100 : Int) : ℚ)
            (((0 : Int) + 100 : Int) : ℚ) ⟨4, 5, 6, 255⟩),
          Cmd.draw (.ellipse (((0 : Int) : ℚ) + ((100 : Int) : ℚ) / 4 - r)
            (((0 : Int) : ℚ) + ((100 : Int) : ℚ) / 4 - r)
            (((0 : Int) : ℚ) + ((100 : Int) : ℚ) / 4 + r)
            (((0 : Int) : ℚ) + ((100 : Int) : ℚ) / 4 + r) ⟨1, 2, 3, 255⟩),
          Cmd.draw (.ellipse (((0 : Int) : ℚ) + 3 * (((100 : Int) : ℚ) / 4) - r)
            (((0 : Int) : ℚ) + 3 * (((100 : Int) : ℚ) / 4) - r)
            (((0 : Int) : ℚ) + 3 * (((100 : Int) : ℚ) / 4) + r)
            (((0 : Int) : ℚ) + 3 * (((100 : Int) : ℚ) / 4) + r) ⟨1, 2, 3, 255⟩)], st') ∧
      0.8 * (((100 : Int) : ℚ) / 4) ≤ r ∧ r ≤ 1.2 * (((100 : Int) : ℚ) / 4) :=
  pil_opposite_circles_amended 0 0 100 ⟨1, 2, 3, 255⟩ ⟨4, 5, 6, 255⟩ 0 oracle0 (by norm_num)

/-- C9 counterexample: the SVG `draw_opposite_circles` places *both*
circles at the cell center — at `(50, 50)` for the cell `(0,0,100)`, not at
the quarter-points `(25,25)`/`(75,75)` — with radius `40`, outside any
`size/4` jitter band (at most `1.2 · 25 = 30`). -/
theorem svg_opposite_circles_counterexample :
    draw_opposite_circles 0 0 100 "#111111" "#222222" 0 oracle0 =
      ([SvgNode.sh (.rect 0 0 100 100 "#222222"),
        SvgNode.sh (.circle 50 50 40 "#111111" (some 1)),
        SvgNode.sh (.circle 50 50 40 "#111111" (some 1))], ⟨oracle0.oracle, 3⟩) ∧
    (50 : ℚ) ≠ 25 ∧ ¬((40 : ℚ) ≤ 1.2 * (100 / 4)) := by
  refine ⟨?_, by norm_num, by norm_num⟩
  norm_num [draw_opposite_circles, pyUniform, pyRandom, get_random_opacity_str,
    RandState.next, oracle0]

set_option maxHeartbeats 4000000

/-- C10: the raster node's built-in Palette Store holds exactly 68 palettes
(4 hand-written plus 64 triadic), each with at least 3 entries, every entry
a `'#'`-prefixed string of exactly 6 hexadecimal digits; consequently for
every stored palette the validity filter keeps everything, every entry
parses, and the invalid-hex fallback branches of `pil_get_two_colors` and
`pil_create_background_colors` are never taken. -/
theorem palette_store_invariant :
    DEFAULT_PALETTES_DATA_PIL.length = 68 ∧
    (∀ p ∈ DEFAULT_PALETTES_DATA_PIL, 3 ≤ p.length ∧ ∀ c ∈ p, isHex6 c = true) ∧
    (∀ p ∈ DEFAULT_PALETTES_DATA_PIL,
      validColors p = p ∧ pilColorsFallbackTaken p = false ∧
      pilBackgroundFallbackTaken p = false ∧ ∀ c ∈ p, (hexRgbCore c).isOk = true) := by
  decide

set_option maxHeartbeats 200000
